import Mathlib

/-!
# Verification of the trust-api-mcp request pipeline

Shallow embedding of the request canonicalizer, sanitizer, validators,
rate limiter and resilient transport of the `trust-api-mcp` repository
(`src/server/src/trust-api.ts`, `src/server/src/index.ts` /
`RequestValidator`, `src/server/src/tools.ts`), together with theorems
settling the specification claims about them.

JavaScript values flowing through the canonicalizer are modelled by a
neutral JSON-like tree `Json` (objects are association lists in insertion
order, as produced by `Object.entries`).  The runtime library functions
`JSON.parse`, `fetch`, `Date.now` and `setTimeout` are modelled as
explicit parameters / virtual time; everything else is translated
directly from the TypeScript source.
-/

set_option maxHeartbeats 1000000
set_option maxRecDepth 8192

/-! ## JavaScript string primitives

The JS methods `trim`, `toLowerCase`, `startsWith`, `replace(/'/g,...)`,
`replace(/\D/g,'')` used by the source are modelled on the character
list of the string (Lean's own `String.trim`/`String.toLower` are
defined by well-founded recursion on byte positions and do not reduce in
the kernel, so we use direct structural definitions). -/

/-- JS `String.prototype.trim`: strip whitespace from both ends. -/
def jsTrim (s : String) : String :=
  ⟨((s.data.dropWhile Char.isWhitespace).reverse.dropWhile Char.isWhitespace).reverse⟩

/-- JS `String.prototype.toLowerCase` (ASCII case folding suffices for
the placeholder and test-email comparisons in the source). -/
def jsToLower (s : String) : String :=
  ⟨s.data.map Char.toLower⟩

/-- JS `String.prototype.startsWith` for a single-character pattern. -/
def jsStartsWithChar (s : String) (c : Char) : Bool :=
  match s.data with
  | [] => false
  | d :: _ => d = c

/-- JS `raw.replace(/\D/g, '')`: keep only decimal digits. -/
def digitsOnly (s : String) : String :=
  ⟨s.data.filter Char.isDigit⟩

/-- JS `trimmed.replace(/'/g, '"')`: turn every single quote into a
double quote. -/
def singleToDoubleQuotes (s : String) : String :=
  ⟨s.data.map (fun c => if c = '\'' then '"' else c)⟩

/-! ## The JSON value model -/

/-- JSON-like value tree (`null | boolean | number | string | array | object`).
Objects keep their fields as an association list in insertion order,
mirroring `Object.entries`.  Numbers are modelled as integers (no claim
depends on fractional values). -/
inductive Json where
  | null : Json
  | bool (b : Bool) : Json
  | num (n : Int) : Json
  | str (s : String) : Json
  | arr (elems : List Json) : Json
  | obj (fields : List (String × Json)) : Json
  deriving Repr

/-- `isEmptyValue` from `trust-api.ts`: null/undefined, placeholder strings
(trimmed, lower-cased `""`, `"n/a"`, `"na"`, `"null"`, `"none"`), and
objects with no keys are "empty".  Arrays are *not* objects for this test
(`typeof value === 'object' && !Array.isArray(value)`), so they fall
through to `return false`.  `undefined` is represented by `Option.none`
at use sites (see `isEmptyOpt`). -/
def isEmptyValue : Json → Bool
  | .null => true
  | .str s =>
      let trimmed := jsToLower (jsTrim s)
      trimmed = "" || trimmed = "n/a" || trimmed = "na" ||
        trimmed = "null" || trimmed = "none"
  | .obj fields => fields.length = 0
  | _ => false

/-- `isEmptyValue` applied to a possibly-`undefined` value
(`undefined` ↦ `none`). -/
def isEmptyOpt : Option Json → Bool
  | none => true
  | some v => isEmptyValue v

mutual

/-- `cleanObject` from `trust-api.ts`: recursively removes empty/N-A
values.  Primitives: `undefined` if empty else unchanged.  Arrays: clean
every element, keep the non-empty ones — note the (possibly empty) array
itself is always returned.  Objects: clean every field, keep non-empty
ones; an object left with no keys becomes `undefined` (`none`). -/
def cleanObject : Json → Option Json
  | .null => none
  | .bool b => some (.bool b)
  | .num n => some (.num n)
  | .str s => if isEmptyValue (.str s) then none else some (.str s)
  | .arr elems => some (.arr (cleanElems elems))
  | .obj fields =>
      if (cleanFields fields).length > 0 then some (.obj (cleanFields fields))
      else none

/-- The array branch of `cleanObject`:
`obj.map(item => cleanObject(item)).filter(item => !isEmptyValue(item))`. -/
def cleanElems : List Json → List Json
  | [] => []
  | x :: xs =>
      match cleanObject x with
      | some v => if isEmptyValue v then cleanElems xs else v :: cleanElems xs
      | none => cleanElems xs

/-- The object branch of `cleanObject`: keep `key ↦ cleanObject value`
for the fields whose cleaned value is not empty. -/
def cleanFields : List (String × Json) → List (String × Json)
  | [] => []
  | (k, v) :: rest =>
      match cleanObject v with
      | some c =>
          if isEmptyValue c then cleanFields rest else (k, c) :: cleanFields rest
      | none => cleanFields rest

end


/-! ## Association-list object primitives

JS property read (`data.foo`) and property assignment
(`request[key] = v`, which overwrites in place or appends). -/

/-- First-match association lookup (`data[k]`, `undefined` ↦ `none`). -/
def getKey? (fields : List (String × Json)) (k : String) : Option Json :=
  match fields with
  | [] => none
  | (k', v) :: rest => if k' = k then some v else getKey? rest k

/-- JS property assignment: overwrite the slot of an existing key in
place, append a fresh key at the end. -/
def setKey : List (String × Json) → String → Json → List (String × Json)
  | [], k, v => [(k, v)]
  | (k', w) :: rest, k, v =>
      if k' = k then (k, v) :: rest else (k', w) :: setKey rest k v

/-- JS truthiness of a JSON value (`undefined` handled via `Option` at
use sites). -/
def jTruthy : Json → Bool
  | .null => false
  | .bool b => b
  | .num n => n ≠ 0
  | .str s => s ≠ ""
  | .arr _ => true
  | .obj _ => true

/-! ## FieldNormalizer and RequestCanonicalizer (`trust-api.ts`) -/

/-- `normalizeField` from `trust-api.ts`: objects (and arrays, which are
JS objects) pass through unchanged — every branch of the object case in
the source returns `value`; strings are wrapped as `{raw: value}` for
the identity kinds and `{ip: value}` for `device`; everything else
passes through. -/
def normalizeField (fieldType : String) (v : Json) : Json :=
  match v with
  | .obj _ => v
  | .arr _ => v
  | .str s =>
      if fieldType = "email" ∨ fieldType = "phone" ∨ fieldType = "address" ∨
          fieldType = "name" then .obj [("raw", .str s)]
      else if fieldType = "device" then .obj [("ip", .str s)]
      else v
  | _ => v

/-- `normalizeGroupFields` from `trust-api.ts`: normalize every entry of
a group object.  An array argument is a JS object whose `Object.entries`
are index/value pairs, producing a plain object keyed by indices. -/
def normalizeGroupFields : Json → Json
  | .obj fields => .obj (fields.map (fun kv => (kv.1, normalizeField kv.1 kv.2)))
  | .arr elems =>
      .obj (elems.enum.map (fun iv => (toString iv.1, normalizeField (toString iv.1) iv.2)))
  | v => v

/-- The string-smuggled JSON handling of the `sender`/`recipient`/`metadata`
branch of `buildRequest`: if the value is a string whose trimmed form
starts with `{` or `[`, substitute double quotes for single quotes and
attempt to parse (the runtime `JSON.parse` is the parameter `parse`,
`none` meaning it throws); on failure keep the original string. -/
def smuggleParse (parse : String → Option Json) (v : Json) : Json :=
  match v with
  | .str s =>
      let trimmed := jsTrim s
      if jsStartsWithChar trimmed '{' || jsStartsWithChar trimmed '[' then
        match parse (singleToDoubleQuotes trimmed) with
        | some p => p
        | none => .str s
      else .str s
  | _ => v

/-- `typeof parsedValue === 'object' && parsedValue !== null`. -/
def isObjLike : Json → Bool
  | .obj _ => true
  | .arr _ => true
  | _ => false

/-- Accumulator of the `buildRequest` loop: the request under
construction and the collected root-level identity fields. -/
structure BuildSt where
  request : List (String × Json)
  accountFields : List (String × Json)

/-- The identity ("data") field names of `buildRequest`. -/
def dataFieldsList : List String := ["name", "email", "phone", "address"]

/-- The other recognized top-level field names of `buildRequest`. -/
def otherFieldsList : List String :=
  ["device", "browser", "card", "order", "payment", "session", "person",
   "personal_identifier", "locale", "custom", "page"]

/-- Effect of one iteration of the `buildRequest` loop: skip the entry,
write a value into the request slot of the processed key, or collect a
value into the synthesized account fields. -/
inductive EntryWrite where
  | skip : EntryWrite
  | toRequest (v : Json) : EntryWrite
  | toAccount (v : Json) : EntryWrite

/-- The branch structure of the
`for (const [key, value] of Object.entries(data))` loop body of
`buildRequest`, deciding what (if anything) the iteration writes. -/
def entryWrite (parse : String → Option Json) (hasAccountGroup : Bool)
    (k : String) (v : Json) : EntryWrite :=
  if k = "action" ∨ k = "key" then .skip
  else if isEmptyValue v then .skip
  else if k = "sender" ∨ k = "recipient" ∨ k = "metadata" then
    match
      if isObjLike (smuggleParse parse v) then cleanObject (smuggleParse parse v)
      else some (smuggleParse parse v) with
    | some pv => if isEmptyValue pv then .skip else .toRequest pv
    | none => .skip
  else if k = "account" ∨ k = "billing" ∨ k = "shipping" then
    match cleanObject (normalizeGroupFields v) with
    | some c => if isEmptyValue c then .skip else .toRequest c
    | none => .skip
  else if k ∈ dataFieldsList ∧ hasAccountGroup = false then
    if isEmptyValue (normalizeField k v) then .skip
    else .toAccount (normalizeField k v)
  else if k ∈ dataFieldsList ++ otherFieldsList then
    if isEmptyValue (normalizeField k v) then .skip
    else .toRequest (normalizeField k v)
  else .skip

/-- One iteration of the `buildRequest` loop: perform the write decided
by `entryWrite` on the accumulator. -/
def processEntry (parse : String → Option Json) (hasAccountGroup : Bool)
    (st : BuildSt) (k : String) (v : Json) : BuildSt :=
  match entryWrite parse hasAccountGroup k v with
  | .skip => st
  | .toRequest w => { st with request := setKey st.request k w }
  | .toAccount w => { st with accountFields := setKey st.accountFields k w }

/-- The `if (data.flag !== undefined) request.flag = data.flag` pattern of
the optional-flag copying at the end of `buildRequest`. -/
def maybeSet (req : List (String × Json)) (k : String) (v : Option Json) :
    List (String × Json) :=
  match v with
  | some v => setKey req k v
  | none => req

/-- The step after the `buildRequest` loop: `if we collected account
fields and there's no account group, create one`. -/
def finishRequest (hasAccountGroup : Bool) (st : BuildSt) :
    List (String × Json) :=
  if st.accountFields.length > 0 ∧ hasAccountGroup = false then
    setKey st.request "account" (.obj st.accountFields)
  else st.request

/-- `buildRequest` from `trust-api.ts`.  The caller's input object is the
association list `data`; `parse` models the runtime `JSON.parse`. -/
def buildRequest (parse : String → Option Json)
    (data : List (String × Json)) : List (String × Json) :=
  let hasAccountGroup := (getKey? data "account").isSome
  let actionVal :=
    match getKey? data "action" with
    | some a => if jTruthy a then a else Json.obj [("type", .str "purchase")]
    | none => Json.obj [("type", .str "purchase")]
  let st := data.foldl
    (fun st kv => processEntry parse hasAccountGroup st kv.1 kv.2)
    ⟨[("action", actionVal)], []⟩
  let req := finishRequest hasAccountGroup st
  let req := maybeSet req "echo_query" (getKey? data "echo_query")
  let req := maybeSet req "connectivity" (getKey? data "connectivity")
  maybeSet req "signals" (getKey? data "signals")



/-- The request slot produced by the `account`/`billing`/`shipping`
branch of the loop for a given caller value. -/
def groupSlot (v : Json) : Option Json :=
  if isEmptyValue v then none
  else
    match cleanObject (normalizeGroupFields v) with
    | some c => if isEmptyValue c then none else some c
    | none => none

/-! ## Typed request model (`types.ts`)

The validators (`RequestValidator` in the validators module and the
pre-flight checks of `TrustAPIClient`) operate on the typed
`Partial<TrustRequest>` shape.  Optional TS fields become `Option`;
`string | number` unions become `StrNum`.  Object fields whose inner
shape is never read by any embedded function (browser, card, order,
page, payment, session, locale, custom, sender, recipient, metadata —
only their presence is tested) are carried as `Option Json`; likewise
the descriptive `DeviceObject` fields that no validator reads are
omitted. -/

/-- A TS `string | number` value. -/
inductive StrNum where
  | s (v : String) : StrNum
  | n (v : Int) : StrNum
  deriving Repr

/-- JS `String(x)` for a `string | number`. -/
def StrNum.toJsString : StrNum → String
  | .s v => v
  | .n v => toString v

/-- JS truthiness of a `string | number`. -/
def StrNum.truthy : StrNum → Bool
  | .s v => !(v = "")
  | .n v => !(v = 0)

/-- JS truthiness of an optional string field. -/
def optStrTruthy : Option String → Bool
  | none => false
  | some s => !(s = "")

/-- JS truthiness of an optional `string | number` field. -/
def optSNTruthy : Option StrNum → Bool
  | none => false
  | some v => v.truthy

/-- JS truthiness of an optional boolean field. -/
def optBoolTruthy : Option Bool → Bool
  | none => false
  | some b => b

/-- `NameObject` (the TS `prefix` field is spelt `prefix_`, `prefix`
being a Lean keyword). -/
structure NameObject where
  raw : Option String := none
  first_name : Option String := none
  last_name : Option String := none
  middle_name : Option String := none
  prefix_ : Option String := none
  suffix : Option String := none
  deriving Repr

/-- `EmailObject`. -/
structure EmailObject where
  address : Option String := none
  verified : Option Bool := none
  deriving Repr

/-- `PhoneObject`. -/
structure PhoneObject where
  raw : Option String := none
  country_code : Option StrNum := none
  number : Option StrNum := none
  extension : Option StrNum := none
  verified : Option Bool := none
  deriving Repr

/-- `AddressObject`. -/
structure AddressObject where
  raw : Option String := none
  country : Option String := none
  state : Option String := none
  city : Option String := none
  street : Option String := none
  house : Option String := none
  po_box : Option String := none
  zip_code : Option String := none
  deriving Repr

/-- `PersonObject` (`gender` is validated against `M`/`F` at runtime, so
it is carried as a plain string). -/
structure PersonObject where
  dob : Option String := none
  gender : Option String := none
  deriving Repr

/-- `PersonalIdentifierObject`. -/
structure PersonalIdentifierObject where
  type : Option String := none
  value : Option String := none
  country : Option String := none
  issue_date : Option String := none
  expiry_date : Option String := none
  deriving Repr

/-- `DeviceObject` restricted to the fields the validators read. -/
structure DeviceObject where
  ip : Option String := none
  true_ip : Option String := none
  battery_level : Option Int := none
  is_emulator : Option Bool := none
  is_virtual_env : Option Bool := none
  is_rooted : Option Bool := none
  deriving Repr

/-- `AccountObject`. -/
structure AccountObject where
  created : Option String := none
  id : Option String := none
  ip_created : Option String := none
  ip_history : Option (List String) := none
  ip_last : Option String := none
  active : Option Bool := none
  name : Option NameObject := none
  email : Option EmailObject := none
  phone : Option PhoneObject := none
  address : Option AddressObject := none
  person : Option PersonObject := none
  personal_identifier : Option PersonalIdentifierObject := none
  deriving Repr

/-- The inline `billing`/`shipping` group type of `TrustRequest`. -/
structure GroupObject where
  name : Option NameObject := none
  email : Option EmailObject := none
  phone : Option PhoneObject := none
  address : Option AddressObject := none
  deriving Repr

/-- `ActionObject`. -/
structure ActionObject where
  type : String
  id : Option String := none
  organization : Option String := none
  deriving Repr

/-- `Partial<TrustRequest>`: every field optional. -/
structure TrustRequest where
  key : Option String := none
  action : Option ActionObject := none
  echo_query : Option Bool := none
  connectivity : Option Bool := none
  signals : Option Bool := none
  account : Option AccountObject := none
  billing : Option GroupObject := none
  shipping : Option GroupObject := none
  sender : Option Json := none
  recipient : Option Json := none
  metadata : Option Json := none
  name : Option NameObject := none
  email : Option EmailObject := none
  phone : Option PhoneObject := none
  address : Option AddressObject := none
  person : Option PersonObject := none
  personal_identifier : Option PersonalIdentifierObject := none
  device : Option DeviceObject := none
  browser : Option Json := none
  card : Option Json := none
  order : Option Json := none
  page : Option Json := none
  payment : Option Json := none
  session : Option Json := none
  locale : Option Json := none
  custom : Option Json := none
  deriving Repr

/-- `ValidationError` from the validators module. -/
structure ValidationError where
  field : String
  message : String
  code : Option Nat := none
  deriving Repr, DecidableEq

/-- `ValidationWarning` from the validators module. -/
structure ValidationWarning where
  field : String
  message : String
  code : Option Nat := none
  deriving Repr, DecidableEq

/-- `ValidationResult` from the validators module. -/
structure ValidationResult where
  valid : Bool
  errors : List ValidationError
  warnings : List ValidationWarning
  deriving Repr

/-! ## The regex helpers of the validators, on character lists -/

/-- Split a character list at every occurrence of a separator
(JS `String.prototype.split` with a single-character separator). -/
def splitOnChar : List Char → Char → List (List Char)
  | [], _ => [[]]
  | c :: rest, sep =>
      if c = sep then [] :: splitOnChar rest sep
      else
        match splitOnChar rest sep with
        | [] => [[c]]
        | hd :: tl => (c :: hd) :: tl

/-- JS `parseInt` on a digit-only string. -/
def digitsToNat (cs : List Char) : Nat :=
  cs.foldl (fun acc c => acc * 10 + (c.toNat - '0'.toNat)) 0

/-- Hexadecimal digit test (`[0-9a-fA-F]`). -/
def isHexDigitChar (c : Char) : Bool :=
  c.isDigit || ('a' ≤ c && c ≤ 'f') || ('A' ≤ c && c ≤ 'F')

/-- `isValidIP` from the validators module: the IPv4 shape
`^(\d{1,3}\.){3}\d{1,3}$` with every dot-separated part parsing to
0–255; otherwise the simplified IPv6 shape
`^([0-9a-fA-F]{0,4}:){2,7}[0-9a-fA-F]{0,4}$` (3–8 colon-separated
groups of at most four hex digits). -/
def isValidIP (ip : String) : Bool :=
  if (splitOnChar ip.data '.').length = 4 &&
      (splitOnChar ip.data '.').all
        (fun p => decide (1 ≤ p.length) && decide (p.length ≤ 3) &&
          p.all Char.isDigit) then
    (splitOnChar ip.data '.').all (fun p => decide (digitsToNat p ≤ 255))
  else
    decide (3 ≤ (splitOnChar ip.data ':').length) &&
    decide ((splitOnChar ip.data ':').length ≤ 8) &&
    (splitOnChar ip.data ':').all
      (fun p => decide (p.length ≤ 4) && p.all isHexDigitChar)

/-- `^\d{4}-\d{2}-\d{2}$`. -/
def isDateYMD (s : String) : Bool :=
  match splitOnChar s.data '-' with
  | [y, m, d] =>
      y.length = 4 && m.length = 2 && d.length = 2 &&
      y.all Char.isDigit && m.all Char.isDigit && d.all Char.isDigit
  | _ => false

/-- `^\d{4}(-\d{2})?$`. -/
def isYearOrYearMonth (s : String) : Bool :=
  match splitOnChar s.data '-' with
  | [y] => y.length = 4 && y.all Char.isDigit
  | [y, m] => y.length = 4 && m.length = 2 && y.all Char.isDigit && m.all Char.isDigit
  | _ => false

/-- `^\d+$`. -/
def isAllDigits (s : String) : Bool :=
  !s.data.isEmpty && s.data.all Char.isDigit

/-- `^\d{4}-\d{2}-\d{2}( \d{2}:\d{2}:\d{2})?$` (the `account.created`
check). -/
def isCreatedTimestamp (s : String) : Bool :=
  match splitOnChar s.data ' ' with
  | [d] => isDateYMD ⟨d⟩
  | [d, t] =>
      isDateYMD ⟨d⟩ &&
      (match splitOnChar t ':' with
       | [h, m, sec] =>
           h.length = 2 && m.length = 2 && sec.length = 2 &&
           h.all Char.isDigit && m.all Char.isDigit && sec.all Char.isDigit
       | _ => false)
  | _ => false

/-- The local-part character class of the email regex
(`[a-zA-Z0-9'.!_%\-+]`). -/
def isEmailLocalChar (c : Char) : Bool :=
  c.isAlpha || c.isDigit || c = '\'' || c = '.' || c = '!' || c = '_' ||
    c = '%' || c = '-' || c = '+'

/-- The domain character class of the email regex
(`[a-zA-Z0-9._%\-]`). -/
def isEmailDomainChar (c : Char) : Bool :=
  c.isAlpha || c.isDigit || c = '.' || c = '_' || c = '%' || c = '-'

/-- `^[a-zA-Z0-9'.!_%\-+]+@[a-zA-Z0-9._%\-]+\.[a-zA-Z]{2,24}$`: exactly
one `@`; a non-empty local part over the local class; a domain that
splits at its last dot into a non-empty body over the domain class and a
2–24 letter TLD. -/
def emailRegexTest (s : String) : Bool :=
  match splitOnChar s.data '@' with
  | [loc, rest] =>
      !loc.isEmpty && loc.all isEmailLocalChar &&
      decide (2 ≤ (splitOnChar rest '.').length) &&
      decide (2 ≤ ((splitOnChar rest '.').getLastD []).length) &&
      decide (((splitOnChar rest '.').getLastD []).length ≤ 24) &&
      ((splitOnChar rest '.').getLastD []).all Char.isAlpha &&
      ((splitOnChar rest '.').dropLast).all (fun p => p.all isEmailDomainChar) &&
      (decide (3 ≤ (splitOnChar rest '.').length) ||
        !((splitOnChar rest '.').headD []).isEmpty)
  | _ => false

/-- `isValidCPF` from the validators module: strip non-digits, require
exactly 11 digits not all equal (the checksum is a stub returning
`true` in the source). -/
def isValidCPF (cpf : String) : Bool :=
  if !((cpf.data.filter Char.isDigit).length = 11) then false
  else
    match cpf.data.filter Char.isDigit with
    | [] => false
    | c :: rest => !(rest.all (fun d => d = c))


/-! ## RequestValidator (validators module) -/

namespace RequestValidator

/-- Pair of findings lists (errors, warnings) produced by one
sub-validation. -/
abbrev Findings := List ValidationError × List ValidationWarning

/-- Sequencing of two sub-validations: findings accumulate in call
order. -/
def joinFindings (a b : Findings) : Findings :=
  (a.1 ++ b.1, a.2 ++ b.2)

/-- Run a sub-validator on an optional field (`if (x) validateX(...)`). -/
def optionalFindings {α : Type} (f : α → String → Findings) :
    Option α → String → Findings
  | none, _ => ([], [])
  | some x, path => f x path

/-- `validateName`. -/
def validateName (name : NameObject) (path : String) : Findings :=
  if optStrTruthy name.raw then
    ((if optStrTruthy name.first_name || optStrTruthy name.last_name ||
         optStrTruthy name.middle_name || optStrTruthy name.prefix_ ||
         optStrTruthy name.suffix then
        [⟨path, "Cannot use raw with other name fields", some 1024⟩]
      else []),
     (if (jsTrim (name.raw.getD "")).length < 2 then
        [⟨path ++ ".raw", "Name appears too short", none⟩]
      else []))
  else if !(optStrTruthy name.first_name) || !(optStrTruthy name.last_name) then
    ([⟨path, "Name must have either raw or both first_name and last_name",
       some 2023⟩], [])
  else
    ([],
     (if (name.first_name.getD "").length < 1 then
        [⟨path ++ ".first_name", "First name should be at least 1 character",
          none⟩]
      else []) ++
     (if (name.last_name.getD "").length < 2 then
        [⟨path ++ ".last_name", "Last name should be at least 2 characters",
          none⟩]
      else []))

/-- `validateEmail`. -/
def validateEmail (email : EmailObject) (path : String) : Findings :=
  if !(optStrTruthy email.address) then
    ([⟨path, "Email address is required", some 2023⟩], [])
  else
    ((if !(emailRegexTest (email.address.getD "")) then
        [⟨path ++ ".address", "Invalid email format", some 1015⟩]
      else []),
     (if jsToLower (email.address.getD "") = "test@test.com" ∨
         jsToLower (email.address.getD "") = "example@example.com" ∨
         jsToLower (email.address.getD "") = "user@example.com" then
        [⟨path ++ ".address", "Test email address detected", none⟩]
      else []))

/-- `validatePhone`. -/
def validatePhone (phone : PhoneObject) (path : String) : Findings :=
  if optStrTruthy phone.raw then
    ((if optSNTruthy phone.country_code || optSNTruthy phone.number ||
         optSNTruthy phone.extension then
        [⟨path, "Cannot use raw with other phone fields", some 1024⟩]
      else []),
     (if (digitsOnly (phone.raw.getD "")).length < 7 then
        [⟨path ++ ".raw", "Phone number appears too short", none⟩]
      else []))
  else if !(optSNTruthy phone.country_code) || !(optSNTruthy phone.number) then
    ([⟨path, "Phone must have either raw or both country_code and number",
       some 1015⟩], [])
  else
    ([],
     (if ((phone.country_code.getD (.s "")).toJsString).length > 3 ∨
         ((phone.country_code.getD (.s "")).toJsString).length < 1 then
        [⟨path ++ ".country_code", "Country code should be 1-3 digits", none⟩]
      else []) ++
     (if ((phone.number.getD (.s "")).toJsString).length < 7 ∨
         ((phone.number.getD (.s "")).toJsString).length > 15 then
        [⟨path ++ ".number", "Phone number should be 7-15 digits", none⟩]
      else []))

/-- `validateAddress`. -/
def validateAddress (address : AddressObject) (path : String) : Findings :=
  if optStrTruthy address.raw then
    ((if optStrTruthy address.country || optStrTruthy address.state ||
         optStrTruthy address.city || optStrTruthy address.street ||
         optStrTruthy address.house || optStrTruthy address.po_box ||
         optStrTruthy address.zip_code then
        [⟨path, "Cannot use raw with other address fields", some 1024⟩]
      else []), [])
  else
    ((if !(optStrTruthy address.country || optStrTruthy address.state ||
          optStrTruthy address.zip_code || optStrTruthy address.city) then
        [⟨path,
          "Address must have at least one of: raw, country, state, zip_code, or city",
          some 1017⟩]
      else []),
     (if optStrTruthy address.country ∧ ¬((address.country.getD "").length = 2) then
        [⟨path ++ ".country", "Country should be a 2-letter ISO code", some 2013⟩]
      else []) ++
     (if optStrTruthy address.state ∧ address.country = some "US" ∧
         ¬((address.state.getD "").length = 2) then
        [⟨path ++ ".state", "US state should be a 2-letter code", some 2005⟩]
      else []) ++
     (if optStrTruthy address.state ∧ ¬(optStrTruthy address.country) then
        [⟨path ++ ".state", "State provided without country", some 2014⟩]
      else []) ++
     (if optStrTruthy address.city ∧ ¬(optStrTruthy address.state) ∧
         ¬(optStrTruthy address.country) then
        [⟨path ++ ".city", "City provided without state or country", some 2016⟩]
      else []))

/-- `validateDevice`. -/
def validateDevice (device : DeviceObject) (path : String) : Findings :=
  ((if optStrTruthy device.ip ∧ ¬(isValidIP (device.ip.getD "") = true) then
      [⟨path ++ ".ip", "Invalid IP address format", some 1015⟩]
    else []) ++
   (if optStrTruthy device.true_ip ∧ ¬(isValidIP (device.true_ip.getD "") = true) then
      [⟨path ++ ".true_ip", "Invalid true_ip address format", some 1015⟩]
    else []),
   (match device.battery_level with
    | some b =>
        if b < 0 ∨ b > 100 then
          [⟨path ++ ".battery_level", "Battery level should be between 0 and 100",
            none⟩]
        else []
    | none => []) ++
   (if optBoolTruthy device.is_emulator || optBoolTruthy device.is_virtual_env then
      [⟨path, "Virtual environment or emulator detected", none⟩]
    else []) ++
   (if optBoolTruthy device.is_rooted then
      [⟨path, "Rooted/jailbroken device detected", none⟩]
    else []))

/-- `validatePerson`. -/
def validatePerson (person : PersonObject) (path : String) : Findings :=
  ((if optStrTruthy person.gender ∧ ¬(person.gender = some "M") ∧
       ¬(person.gender = some "F") then
      [⟨path ++ ".gender", "Gender must be M or F", some 1015⟩]
    else []),
   (if optStrTruthy person.dob ∧ ¬(isDateYMD (person.dob.getD "") = true) ∧
       ¬(isYearOrYearMonth (person.dob.getD "") = true) ∧
       ¬(isAllDigits (person.dob.getD "") = true) then
      [⟨path ++ ".dob",
        "Date of birth should be in YYYY-MM-DD, YYYY-MM, YYYY, or age format",
        none⟩]
    else []))

/-- `validatePersonalIdentifier`. -/
def validatePersonalIdentifier (identifier : PersonalIdentifierObject)
    (path : String) : Findings :=
  ((if !(optStrTruthy identifier.type) then
      [⟨path ++ ".type", "Identifier type is required", some 2023⟩]
    else []) ++
   (if !(optStrTruthy identifier.value) then
      [⟨path ++ ".value", "Identifier value is required", some 2023⟩]
    else []),
   (if identifier.type = some "CPF" ∧ optStrTruthy identifier.value ∧
       ¬(isValidCPF (identifier.value.getD "") = true) then
      [⟨path ++ ".value", "CPF format appears invalid", none⟩]
    else []) ++
   (if optStrTruthy identifier.issue_date ∧
       ¬(isDateYMD (identifier.issue_date.getD "") = true) then
      [⟨path ++ ".issue_date", "Issue date should be in YYYY-MM-DD format", none⟩]
    else []) ++
   (if optStrTruthy identifier.expiry_date ∧
       ¬(isDateYMD (identifier.expiry_date.getD "") = true) then
      [⟨path ++ ".expiry_date", "Expiry date should be in YYYY-MM-DD format", none⟩]
    else []))

/-- The `account.created` / `account.ip_*` extra warnings of
`validateAccountGroup`. -/
def accountExtraWarnings (account : AccountObject) : List ValidationWarning :=
  (if optStrTruthy account.created ∧
      ¬(isCreatedTimestamp (account.created.getD "") = true) then
     [⟨"account.created", "Created date should be in YYYY-MM-DD HH:MM:SS format",
       none⟩]
   else []) ++
  (if optStrTruthy account.ip_created ∧
      ¬(isValidIP (account.ip_created.getD "") = true) then
     [⟨"account.ip_created", "Invalid IP address format", none⟩]
   else []) ++
  (if optStrTruthy account.ip_last ∧
      ¬(isValidIP (account.ip_last.getD "") = true) then
     [⟨"account.ip_last", "Invalid IP address format", none⟩]
   else []) ++
  (match account.ip_history with
   | some ips =>
       (ips.enum.filterMap (fun iv =>
         if !(isValidIP iv.2) then
           some ⟨"account.ip_history[" ++ toString iv.1 ++ "]",
             "Invalid IP address format", none⟩
         else none))
   | none => [])

/-- `validateAccountGroup`. -/
def validateAccountGroup (account : AccountObject) : Findings :=
  joinFindings (optionalFindings validateName account.name "account.name")
    (joinFindings (optionalFindings validateEmail account.email "account.email")
      (joinFindings (optionalFindings validatePhone account.phone "account.phone")
        (joinFindings
          (optionalFindings validateAddress account.address "account.address")
          (joinFindings
            (optionalFindings validatePerson account.person "account.person")
            (joinFindings
              (optionalFindings validatePersonalIdentifier
                account.personal_identifier "account.personal_identifier")
              ([], accountExtraWarnings account))))))

/-- `validateBillingShippingGroup`. -/
def validateBillingShippingGroup (group : GroupObject) (groupName : String) :
    Findings :=
  joinFindings (optionalFindings validateName group.name (groupName ++ ".name"))
    (joinFindings
      (optionalFindings validateEmail group.email (groupName ++ ".email"))
      (joinFindings
        (optionalFindings validatePhone group.phone (groupName ++ ".phone"))
        (optionalFindings validateAddress group.address
          (groupName ++ ".address"))))

/-- The global `action` checks of `validateRequest`. -/
def actionFindings (request : TrustRequest) : Findings :=
  (match request.action with
   | none => [⟨"action", "Action object is required", some 2030⟩]
   | some a =>
       if a.type = "" then
         [⟨"action.type", "Action type is required", some 2031⟩]
       else [], [])

/-- The at-least-one-data-field test of `validateRequest` (the 21
recognized field names). -/
def hasDataField (request : TrustRequest) : Bool :=
  request.name.isSome || request.email.isSome || request.phone.isSome ||
  request.address.isSome || request.device.isSome || request.account.isSome ||
  request.billing.isSome || request.shipping.isSome || request.sender.isSome ||
  request.recipient.isSome || request.browser.isSome || request.card.isSome ||
  request.order.isSome || request.page.isSome || request.payment.isSome ||
  request.session.isSome || request.person.isSome ||
  request.personal_identifier.isSome || request.locale.isSome ||
  request.custom.isSome || request.metadata.isSome

/-- All findings of `validateRequest`, in emission order. -/
def requestFindings (request : TrustRequest) : Findings :=
  joinFindings (actionFindings request)
    (joinFindings
      ((if !(hasDataField request) then
          [⟨"data", "At least one data field is required", some 2023⟩]
        else []), [])
      (joinFindings (optionalFindings validateName request.name "name")
        (joinFindings (optionalFindings validateEmail request.email "email")
          (joinFindings (optionalFindings validatePhone request.phone "phone")
            (joinFindings
              (optionalFindings validateAddress request.address "address")
              (joinFindings
                (optionalFindings validateDevice request.device "device")
                (joinFindings
                  (optionalFindings validatePerson request.person "person")
                  (joinFindings
                    (optionalFindings validatePersonalIdentifier
                      request.personal_identifier "personal_identifier")
                    (joinFindings
                      (match request.account with
                       | some a => validateAccountGroup a
                       | none => ([], []))
                      (joinFindings
                        (match request.billing with
                         | some g => validateBillingShippingGroup g "billing"
                         | none => ([], []))
                        (match request.shipping with
                         | some g => validateBillingShippingGroup g "shipping"
                         | none => ([], []))))))))))))

/-- `validateRequest` of the validators module: collect every error and
warning of the single pass, `valid` iff no errors. -/
def validateRequest (request : TrustRequest) : ValidationResult :=
  { valid := (requestFindings request).1.isEmpty
    errors := (requestFindings request).1
    warnings := (requestFindings request).2 }

end RequestValidator

/-! ## TrustAPIClient (`trust-api.ts`) -/

/-- `TrustAPIError`: the uniform caller-visible error shape
`{message, code?, httpStatus?}`. -/
structure TrustAPIError where
  message : String
  code : Option Nat := none
  httpStatus : Option Nat := none
  deriving Repr, DecidableEq

namespace TrustAPIClient

/-- One step of `validatePhoneObjects`: the checks run on a phone found
at one of the four paths (`getNestedValue` yields `undefined`, skipped,
when the path is absent). -/
def checkPhone : Option PhoneObject → String → Except TrustAPIError Unit
  | none, _ => .ok ()
  | some phone, path =>
      if !(optStrTruthy phone.raw) &&
          (!(optSNTruthy phone.country_code) || !(optSNTruthy phone.number)) then
        .error ⟨"Phone object at " ++ path ++
          " must have either raw or both country_code and number",
          some 1015, none⟩
      else if optStrTruthy phone.raw &&
          (optSNTruthy phone.country_code || optSNTruthy phone.number) then
        .error ⟨"Phone object at " ++ path ++ " cannot have raw with other fields",
          some 1024, none⟩
      else .ok ()

/-- `Object.keys(address).length` on the typed address shape: the number
of present fields. -/
def addressKeyCount (a : AddressObject) : Nat :=
  (if a.raw.isSome then 1 else 0) + (if a.country.isSome then 1 else 0) +
  (if a.state.isSome then 1 else 0) + (if a.city.isSome then 1 else 0) +
  (if a.street.isSome then 1 else 0) + (if a.house.isSome then 1 else 0) +
  (if a.po_box.isSome then 1 else 0) + (if a.zip_code.isSome then 1 else 0)

/-- One step of `validateAddressObjects`. -/
def checkAddress : Option AddressObject → String → Except TrustAPIError Unit
  | none, _ => .ok ()
  | some address, path =>
      if !(optStrTruthy address.raw) && !(optStrTruthy address.country) &&
          !(optStrTruthy address.state) && !(optStrTruthy address.zip_code) &&
          !(optStrTruthy address.city) then
        .error ⟨"Address object at " ++ path ++
          " must have at least one of: raw, country, state, zip_code, or city",
          some 1017, none⟩
      else if optStrTruthy address.raw && decide (addressKeyCount address > 1) then
        .error ⟨"Address object at " ++ path ++ " cannot have raw with other fields",
          some 1024, none⟩
      else .ok ()

/-- One step of `validateNameObjects`. -/
def checkName : Option NameObject → String → Except TrustAPIError Unit
  | none, _ => .ok ()
  | some name, path =>
      if !(optStrTruthy name.raw) &&
          (!(optStrTruthy name.first_name) || !(optStrTruthy name.last_name)) then
        .error ⟨"Name object at " ++ path ++
          " must have either raw or both first_name and last_name",
          some 2023, none⟩
      else if optStrTruthy name.raw &&
          (optStrTruthy name.first_name || optStrTruthy name.last_name) then
        .error ⟨"Name object at " ++ path ++ " cannot have raw with other fields",
          some 1024, none⟩
      else .ok ()

/-- The data-field presence test of the client's `validateRequest` (the
same 21 recognized names). -/
def clientHasDataField (request : TrustRequest) : Bool :=
  request.account.isSome || request.billing.isSome || request.shipping.isSome ||
  request.sender.isSome || request.recipient.isSome || request.name.isSome ||
  request.email.isSome || request.phone.isSome || request.address.isSome ||
  request.device.isSome || request.browser.isSome || request.card.isSome ||
  request.order.isSome || request.page.isSome || request.payment.isSome ||
  request.session.isSome || request.person.isSome ||
  request.personal_identifier.isSome || request.locale.isSome ||
  request.custom.isSome || request.metadata.isSome

/-- Sequential execution of possibly-throwing checks: the first error
ends the run. -/
def firstError : List (Except TrustAPIError Unit) → Except TrustAPIError Unit
  | [] => .ok ()
  | c :: rest =>
      match c with
      | .error e => .error e
      | .ok _ => firstError rest

/-- `validateRequest` of `TrustAPIClient`: fail-fast pre-flight checks —
the first failing check throws and ends validation. -/
def validateRequest (request : TrustRequest) :
    Except TrustAPIError Unit :=
  if !(match request.action with
       | some a => !(a.type = "")
       | none => false) then
    .error ⟨"Action type is required", some 2030, none⟩
  else if !(clientHasDataField request) then
    .error ⟨"At least one data field is required (name, email, phone, address, sender, recipient, etc.)",
      some 2023, none⟩
  else
    firstError
      [checkPhone request.phone "phone",
       checkPhone (request.account.bind AccountObject.phone) "account?.phone",
       checkPhone (request.billing.bind GroupObject.phone) "billing?.phone",
       checkPhone (request.shipping.bind GroupObject.phone) "shipping?.phone",
       checkAddress request.address "address",
       checkAddress (request.account.bind AccountObject.address) "account?.address",
       checkAddress (request.billing.bind GroupObject.address) "billing?.address",
       checkAddress (request.shipping.bind GroupObject.address) "shipping?.address",
       checkName request.name "name",
       checkName (request.account.bind AccountObject.name) "account?.name",
       checkName (request.billing.bind GroupObject.name) "billing?.name",
       checkName (request.shipping.bind GroupObject.name) "shipping?.name"]

/-- The request actually submitted by `scoreTransaction`:
`{...request, key: this.apiKey, action: request.action || {type:"purchase"}}`. -/
def scoreFullRequest (apiKey : String) (request : TrustRequest) : TrustRequest :=
  { request with
      key := some apiKey
      action := some (request.action.getD ⟨"purchase", none, none⟩) }

end TrustAPIClient

/-! ## RateLimiter (`applyRateLimit` in `trust-api.ts`)

Virtual time: `now` is `Date.now()` on entry; a sleep of `w` ms makes
the admission happen at `now + w`.  The function returns the admission
time together with the updated window — note the source pushes `now`
(the pre-sleep timestamp) and performs no re-check after sleeping. -/

/-- `applyRateLimit`: prune entries older than 1000 ms; if the remaining
count has reached the ceiling, sleep
`1000 - (now - oldestRemaining) + 10` ms (when positive); finally record
`now`. -/
def applyRateLimit (rateLimitQPS : Nat) (now : Int) (requests : List Int) :
    Int × List Int :=
  if (requests.filter (fun t => decide (t > now - 1000))).length ≥ rateLimitQPS then
    if 1000 - (now - (requests.filter (fun t => decide (t > now - 1000))).headD 0) + 10 > 0 then
      (now + (1000 - (now - (requests.filter (fun t => decide (t > now - 1000))).headD 0) + 10),
       (requests.filter (fun t => decide (t > now - 1000))) ++ [now])
    else
      (now, (requests.filter (fun t => decide (t > now - 1000))) ++ [now])
  else
    (now, (requests.filter (fun t => decide (t > now - 1000))) ++ [now])

/-! ## ResilientTransport (`makeRequest` in `trust-api.ts`)

The runtime `fetch` is modelled by an oracle mapping the attempt number
to that attempt's outcome: an HTTP response (with status, optional
`Retry-After` header in seconds, and JSON body — `Except String` for a
body whose parsing throws), an abort by the timeout controller, or a
network failure. -/

/-- The domain `error` object of a response body. -/
structure ErrorObject where
  message : String
  code : Option Nat := none
  deriving Repr, DecidableEq

/-- A parsed JSON response body, restricted to the fields the client
reads (`error`, `message`, `code`); the remaining payload is opaque. -/
structure RespBody where
  error : Option ErrorObject := none
  message : Option String := none
  code : Option Nat := none
  deriving Repr, DecidableEq

/-- Outcome of one `fetch` attempt. -/
inductive AttemptOutcome where
  | http (status : Nat) (retryAfter : Option Nat) (body : Except String RespBody)
  | abortTimeout
  | netFail (message : String)

/-- Result of `makeRequest`: the outcome, the number of network attempts
performed, and the total backoff sleep in ms. -/
structure TransportResult where
  result : Except TrustAPIError RespBody
  attempts : Nat
  sleptMs : Nat
  deriving Repr

/-- `error.message || "Network error"`. -/
def networkErrMessage (msg : String) : String :=
  if msg = "" then "Network error" else msg

/-- `makeRequest` from `trust-api.ts`: handle 429 (sleep `Retry-After`
seconds if present else linear backoff, retry while attempts remain,
else fail RateLimitExceeded); retry 5xx with linear backoff while
attempts remain; parse the body; non-2xx bodies raise a coded error;
`AbortError` (timeout) raises immediately and is never retried; other
failures (network faults, unparsable bodies) retry with linear backoff
while attempts remain, else raise a network error. -/
def makeRequest (maxRetries retryDelay : Nat)
    (oracle : Nat → AttemptOutcome) (attempt : Nat) : TransportResult :=
  match oracle attempt with
  | .abortTimeout => ⟨.error ⟨"Request timeout", none, some 408⟩, 1, 0⟩
  | .http status retryAfter body =>
      if status = 429 then
        if _h : attempt ≤ maxRetries then
          ⟨(makeRequest maxRetries retryDelay oracle (attempt + 1)).result,
           (makeRequest maxRetries retryDelay oracle (attempt + 1)).attempts + 1,
           (makeRequest maxRetries retryDelay oracle (attempt + 1)).sleptMs +
             (match retryAfter with
              | some ra => ra * 1000
              | none => retryDelay * attempt)⟩
        else ⟨.error ⟨"Rate limit exceeded", some 1001, some 429⟩, 1, 0⟩
      else if _h : 500 ≤ status ∧ attempt ≤ maxRetries then
        ⟨(makeRequest maxRetries retryDelay oracle (attempt + 1)).result,
         (makeRequest maxRetries retryDelay oracle (attempt + 1)).attempts + 1,
         (makeRequest maxRetries retryDelay oracle (attempt + 1)).sleptMs +
           retryDelay * attempt⟩
      else
        match body with
        | .ok data =>
            if !(200 ≤ status && status ≤ 299) then
              ⟨.error ⟨(data.message.getD ("HTTP " ++ toString status)),
                data.code, some status⟩, 1, 0⟩
            else ⟨.ok data, 1, 0⟩
        | .error parseMsg =>
            if _h : attempt ≤ maxRetries then
              ⟨(makeRequest maxRetries retryDelay oracle (attempt + 1)).result,
               (makeRequest maxRetries retryDelay oracle (attempt + 1)).attempts + 1,
               (makeRequest maxRetries retryDelay oracle (attempt + 1)).sleptMs +
                 retryDelay * attempt⟩
            else ⟨.error ⟨networkErrMessage parseMsg, none, none⟩, 1, 0⟩
  | .netFail msg =>
      if _h : attempt ≤ maxRetries then
        ⟨(makeRequest maxRetries retryDelay oracle (attempt + 1)).result,
         (makeRequest maxRetries retryDelay oracle (attempt + 1)).attempts + 1,
         (makeRequest maxRetries retryDelay oracle (attempt + 1)).sleptMs +
           retryDelay * attempt⟩
      else ⟨.error ⟨networkErrMessage msg, none, none⟩, 1, 0⟩
termination_by maxRetries + 1 - attempt
decreasing_by all_goals omega

/-! ## Feedback operation and the facade pipelines -/

/-- `FeedbackObject`. -/
structure FeedbackObject where
  id : String
  type : String
  feedback_code : Nat
  reason_codes : Option (List Nat) := none
  reason_text : Option String := none
  feedback_timestamp : Option String := none
  deriving Repr

/-- The `action` object of a feedback request. -/
structure FeedbackAction where
  type : String
  organization : Option String := none
  deriving Repr

/-- `FeedbackRequest`. -/
structure FeedbackRequest where
  key : String
  action : FeedbackAction
  feedbacks : List FeedbackObject
  deriving Repr

/-- `Partial<FeedbackRequest>` as received by `sendFeedback`. -/
structure FeedbackRequestPartial where
  key : Option String := none
  action : Option FeedbackAction := none
  feedbacks : Option (List FeedbackObject) := none
  deriving Repr

namespace TrustAPIClient

/-- The request actually submitted by `sendFeedback`:
`{key: this.apiKey, action: {type:"feedback", organization:
request.action?.organization}, feedbacks: request.feedbacks || []}`. -/
def feedbackFullRequest (apiKey : String) (request : FeedbackRequestPartial) :
    FeedbackRequest :=
  { key := apiKey
    action := ⟨"feedback", request.action.bind FeedbackAction.organization⟩
    feedbacks := request.feedbacks.getD [] }

/-- The domain-error check shared by both operations:
`if (response.error) throw new TrustAPIError(message, code)`. -/
def domainCheck (r : Except TrustAPIError RespBody) :
    Except TrustAPIError RespBody :=
  match r with
  | .ok body =>
      match body.error with
      | some e => .error ⟨e.message, e.code, none⟩
      | none => .ok body
  | .error e => .error e

/-- `sendFeedback`: local bounds checks (1 ≤ count ≤ 1000) before the
rate-limit gate and the PUT; returns the caller-visible outcome, the
number of network attempts performed, and the rate window after the
call. -/
def sendFeedback (apiKey : String) (maxRetries retryDelay rateLimitQPS : Nat)
    (now : Int) (window : List Int) (oracle : Nat → AttemptOutcome)
    (request : FeedbackRequestPartial) :
    Except TrustAPIError RespBody × Nat × List Int :=
  if (feedbackFullRequest apiKey request).feedbacks.length = 0 then
    (.error ⟨"At least one feedback item is required", none, none⟩, 0, window)
  else if (feedbackFullRequest apiKey request).feedbacks.length > 1000 then
    (.error ⟨"Maximum 1000 feedback items allowed per request", some 1023, none⟩,
     0, window)
  else
    (domainCheck (makeRequest maxRetries retryDelay oracle 1).result,
     (makeRequest maxRetries retryDelay oracle 1).attempts,
     (applyRateLimit rateLimitQPS now window).2)

/-- `scoreTransaction`: attach credential and default action, validate
(fail-fast), then rate limit, POST with retries, and surface any domain
error. -/
def scoreTransaction (apiKey : String)
    (maxRetries retryDelay rateLimitQPS : Nat) (now : Int)
    (window : List Int) (oracle : Nat → AttemptOutcome)
    (request : TrustRequest) :
    Except TrustAPIError RespBody × Nat × List Int :=
  match validateRequest (scoreFullRequest apiKey request) with
  | .error e => (.error e, 0, window)
  | .ok _ =>
      (domainCheck (makeRequest maxRetries retryDelay oracle 1).result,
       (makeRequest maxRetries retryDelay oracle 1).attempts,
       (applyRateLimit rateLimitQPS now window).2)

end TrustAPIClient

/-- `TrustAPIConfig` as consumed by the constructor. -/
structure TrustAPIConfig where
  apiKey : String
  baseUrl : Option String := none
  maxRetries : Option Nat := none
  retryDelay : Option Nat := none
  timeout : Option Nat := none
  rateLimitQPS : Option Nat := none
  deriving Repr

/-- Constructor defaulting `config.maxRetries ?? 3`. -/
def configMaxRetries (c : TrustAPIConfig) : Nat := c.maxRetries.getD 3

/-- Constructor defaulting `config.retryDelay ?? 1000`. -/
def configRetryDelay (c : TrustAPIConfig) : Nat := c.retryDelay.getD 1000

/-- Constructor defaulting `config.timeout ?? 30000`. -/
def configTimeout (c : TrustAPIConfig) : Nat := c.timeout.getD 30000

/-- Constructor defaulting `config.rateLimitQPS ?? 10`. -/
def configRateLimitQPS (c : TrustAPIConfig) : Nat := c.rateLimitQPS.getD 10

/-- A request carrying two independent validation faults: a phone with
`raw` plus `number` and a name with `raw` plus `first_name`. -/
def twoFaultScoreRequest : TrustRequest :=
  { action := some ⟨"purchase", none, none⟩
    phone := some { raw := some "555-1234", number := some (.s "5551234") }
    name := some { raw := some "X", first_name := some "Y" } }

/-! # Theorems -/

/-! ## Lookup lemmas for the canonicalizer -/

theorem getKey?_setKey (fields : List (String × Json)) (k : String) (v : Json)
    (k' : String) :
    getKey? (setKey fields k v) k' =
      if k' = k then some v else getKey? fields k' := by
  induction fields with
  | nil =>
      by_cases h : k' = k
      · subst h; simp [setKey, getKey?]
      · simp [setKey, getKey?, h, Ne.symm h]
  | cons hd tl ih =>
      obtain ⟨k₀, v₀⟩ := hd
      by_cases h0 : k₀ = k
      · subst h0
        by_cases h1 : k' = k₀
        · subst h1; simp [setKey, getKey?]
        · simp [setKey, getKey?, h1, Ne.symm h1]
      · by_cases h1 : k₀ = k'
        · subst h1
          simp [setKey, getKey?, h0, Ne.symm h0]
        · simp [setKey, getKey?, h0, h1, ih]

theorem getKey?_maybeSet_ne (req : List (String × Json)) (k : String)
    (v : Option Json) (k' : String) (h : k' ≠ k) :
    getKey? (maybeSet req k v) k' = getKey? req k' := by
  cases v <;> simp [maybeSet, getKey?_setKey, h]

theorem getKey?_of_mem (l : List (String × Json)) (k : String) (v : Json)
    (hnd : (l.map Prod.fst).Nodup) (h : (k, v) ∈ l) :
    getKey? l k = some v := by
  induction l with
  | nil => simp at h
  | cons hd tl ih =>
      obtain ⟨k₀, v₀⟩ := hd
      simp only [List.map_cons, List.nodup_cons] at hnd
      rcases List.mem_cons.mp h with heq | hmem
      · obtain ⟨rfl, rfl⟩ := Prod.mk.injEq .. ▸ heq
        simp [getKey?]
      · have hne : k₀ ≠ k := by
          rintro rfl
          exact hnd.1 (List.mem_map.mpr ⟨(k₀, v), hmem, rfl⟩)
        simp [getKey?, hne, ih hnd.2 hmem]

/-! ## Behaviour of the `buildRequest` loop -/

/-- An iteration writes the request only at the key it processes. -/
theorem processEntry_request_ne (parse : String → Option Json)
    (hAG : Bool) (st : BuildSt) (k : String) (v : Json) (k' : String)
    (hne : k' ≠ k) :
    getKey? (processEntry parse hAG st k v).request k' =
      getKey? st.request k' := by
  cases h : entryWrite parse hAG k v <;>
    simp [processEntry, h, getKey?_setKey, hne]

/-- An iteration writes the collected account fields only at the key it
processes. -/
theorem processEntry_acc_ne (parse : String → Option Json)
    (hAG : Bool) (st : BuildSt) (k : String) (v : Json) (k' : String)
    (hne : k' ≠ k) :
    getKey? (processEntry parse hAG st k v).accountFields k' =
      getKey? st.accountFields k' := by
  cases h : entryWrite parse hAG k v <;>
    simp [processEntry, h, getKey?_setKey, hne]

/-- With an explicit account group, no iteration collects into the
synthesized account fields. -/
theorem entryWrite_true_ne_toAccount (parse : String → Option Json)
    (k : String) (v : Json) (w : Json)
    (h : entryWrite parse true k v = .toAccount w) : False := by
  unfold entryWrite at h
  repeat' split at h
  all_goals simp_all

/-- When an explicit account group exists, no iteration touches the
collected account fields. -/
theorem processEntry_acc_of_hasAccount (parse : String → Option Json)
    (st : BuildSt) (k : String) (v : Json) :
    (processEntry parse true st k v).accountFields = st.accountFields := by
  cases h : entryWrite parse true k v with
  | skip => simp [processEntry, h]
  | toRequest w => simp [processEntry, h]
  | toAccount w => exact absurd h (fun hh => entryWrite_true_ne_toAccount parse k v w hh)

/-- Identity fields normalize to non-empty values whenever the input
value is non-empty. -/
theorem isEmptyValue_normalizeField (k : String) (v : Json)
    (hk : k ∈ dataFieldsList) (hv : isEmptyValue v = false) :
    isEmptyValue (normalizeField k v) = false := by
  cases v with
  | null => simp [isEmptyValue] at hv
  | bool b => simpa [normalizeField] using hv
  | num n => simpa [normalizeField] using hv
  | arr elems => simpa [normalizeField] using hv
  | obj fields => simpa [normalizeField] using hv
  | str s =>
      fin_cases hk <;> simp [normalizeField, isEmptyValue]

/-- The loop body on a root identity field when no account group was
supplied: the field is collected into the synthesized account fields. -/
theorem entryWrite_identity_noGroup (parse : String → Option Json)
    (k : String) (v : Json) (hk : k ∈ dataFieldsList) :
    entryWrite parse false k v =
      if isEmptyValue v then .skip
      else if isEmptyValue (normalizeField k v) then .skip
      else .toAccount (normalizeField k v) := by
  fin_cases hk <;> rfl

/-- The loop body on a root identity field when an explicit account group
exists: the field is written to the request root. -/
theorem entryWrite_identity_group (parse : String → Option Json)
    (k : String) (v : Json) (hk : k ∈ dataFieldsList) :
    entryWrite parse true k v =
      if isEmptyValue v then .skip
      else if isEmptyValue (normalizeField k v) then .skip
      else .toRequest (normalizeField k v) := by
  fin_cases hk <;> rfl

/-- The loop body on the `account` key writes exactly `groupSlot`. -/
theorem entryWrite_account (parse : String → Option Json) (hAG : Bool)
    (v : Json) :
    entryWrite parse hAG "account" v =
      match groupSlot v with
      | some c => .toRequest c
      | none => .skip := by
  cases hv : isEmptyValue v with
  | true => simp [entryWrite, groupSlot, hv]
  | false =>
      cases hc : cleanObject (normalizeGroupFields v) with
      | none => simp [entryWrite, groupSlot, hv, hc]
      | some c =>
          cases hec : isEmptyValue c <;>
            simp [entryWrite, groupSlot, hv, hc, hec]

theorem getKey?_cons_ne (k₀ : String) (v₀ : Json) (rest : List (String × Json))
    (k : String) (h : k₀ ≠ k) :
    getKey? ((k₀, v₀) :: rest) k = getKey? rest k := by
  simp [getKey?, h]

/-- Folding the loop over entries that never carry key `k` leaves the
request slot of `k` unchanged. -/
theorem foldl_request_ne (parse : String → Option Json) (hAG : Bool)
    (entries : List (String × Json)) (st : BuildSt) (k : String)
    (hk : ∀ kv ∈ entries, kv.1 ≠ k) :
    getKey? (List.foldl
        (fun st kv => processEntry parse hAG st kv.1 kv.2) st entries).request k =
      getKey? st.request k := by
  induction entries generalizing st with
  | nil => rfl
  | cons hd tl ih =>
      rw [List.foldl_cons,
        ih _ (fun kv hm => hk kv (List.mem_cons_of_mem _ hm))]
      exact processEntry_request_ne parse hAG st hd.1 hd.2 k
        (Ne.symm (hk hd (List.mem_cons_self hd tl)))

/-- Folding the loop over entries that never carry key `k` leaves the
collected account slot of `k` unchanged. -/
theorem foldl_acc_ne (parse : String → Option Json) (hAG : Bool)
    (entries : List (String × Json)) (st : BuildSt) (k : String)
    (hk : ∀ kv ∈ entries, kv.1 ≠ k) :
    getKey? (List.foldl
        (fun st kv => processEntry parse hAG st kv.1 kv.2) st entries).accountFields k =
      getKey? st.accountFields k := by
  induction entries generalizing st with
  | nil => rfl
  | cons hd tl ih =>
      rw [List.foldl_cons,
        ih _ (fun kv hm => hk kv (List.mem_cons_of_mem _ hm))]
      exact processEntry_acc_ne parse hAG st hd.1 hd.2 k
        (Ne.symm (hk hd (List.mem_cons_self hd tl)))

/-- On a root identity field with no account group, the loop body leaves
the request component untouched (the write, if any, goes to the
collected account fields). -/
theorem processEntry_request_identity_noGroup (parse : String → Option Json)
    (st : BuildSt) (k : String) (v : Json) (hk : k ∈ dataFieldsList) :
    (processEntry parse false st k v).request = st.request := by
  cases hv : isEmptyValue v <;>
    cases hn : isEmptyValue (normalizeField k v) <;>
      simp [processEntry, entryWrite_identity_noGroup parse k v hk, hv, hn]

/-- With no account group, the whole loop leaves the request slot of a
root identity field untouched. -/
theorem foldl_request_identity_noGroup (parse : String → Option Json)
    (entries : List (String × Json)) (st : BuildSt) (k : String)
    (hk : k ∈ dataFieldsList) :
    getKey? (List.foldl
        (fun st kv => processEntry parse false st kv.1 kv.2) st entries).request k =
      getKey? st.request k := by
  induction entries generalizing st with
  | nil => rfl
  | cons hd tl ih =>
      obtain ⟨k₀, v₀⟩ := hd
      rw [List.foldl_cons, ih]
      by_cases h0 : k₀ = k
      · subst h0
        rw [processEntry_request_identity_noGroup parse st k₀ v₀ hk]
      · exact processEntry_request_ne parse false st k₀ v₀ k
          (fun hh => h0 hh.symm)

/-- With no account group, the loop records each non-empty root identity
field, normalized, in the collected account fields. -/
theorem foldl_acc_found (parse : String → Option Json)
    (entries : List (String × Json)) (st : BuildSt) (k : String) (v : Json)
    (hk : k ∈ dataFieldsList) (hmem : (k, v) ∈ entries)
    (hnd : (entries.map Prod.fst).Nodup) (hv : isEmptyValue v = false) :
    getKey? (List.foldl
        (fun st kv => processEntry parse false st kv.1 kv.2) st entries).accountFields k =
      some (normalizeField k v) := by
  induction entries generalizing st with
  | nil => simp at hmem
  | cons hd tl ih =>
      obtain ⟨k₀, v₀⟩ := hd
      simp only [List.map_cons, List.nodup_cons] at hnd
      rw [List.foldl_cons]
      rcases List.mem_cons.mp hmem with heq | hmem'
      · have hk0 : k = k₀ := congrArg Prod.fst heq
        have hv0 : v = v₀ := congrArg Prod.snd heq
        subst hk0; subst hv0
        have htl : ∀ kv ∈ tl, kv.1 ≠ k := by
          intro kv hm hh
          exact hnd.1 (hh ▸ List.mem_map.mpr ⟨kv, hm, rfl⟩)
        rw [foldl_acc_ne parse false tl _ k htl]
        have hn := isEmptyValue_normalizeField k v hk hv
        simp [processEntry, entryWrite_identity_noGroup parse k v hk, hv, hn,
          getKey?_setKey]
      · exact ih _ hmem' hnd.2

/-- With an explicit account group, the loop records each non-empty root
identity field, normalized, at the request root. -/
theorem foldl_request_found (parse : String → Option Json)
    (entries : List (String × Json)) (st : BuildSt) (k : String) (v : Json)
    (hk : k ∈ dataFieldsList) (hmem : (k, v) ∈ entries)
    (hnd : (entries.map Prod.fst).Nodup) (hv : isEmptyValue v = false) :
    getKey? (List.foldl
        (fun st kv => processEntry parse true st kv.1 kv.2) st entries).request k =
      some (normalizeField k v) := by
  induction entries generalizing st with
  | nil => simp at hmem
  | cons hd tl ih =>
      obtain ⟨k₀, v₀⟩ := hd
      simp only [List.map_cons, List.nodup_cons] at hnd
      rw [List.foldl_cons]
      rcases List.mem_cons.mp hmem with heq | hmem'
      · have hk0 : k = k₀ := congrArg Prod.fst heq
        have hv0 : v = v₀ := congrArg Prod.snd heq
        subst hk0; subst hv0
        have htl : ∀ kv ∈ tl, kv.1 ≠ k := by
          intro kv hm hh
          exact hnd.1 (hh ▸ List.mem_map.mpr ⟨kv, hm, rfl⟩)
        rw [foldl_request_ne parse true tl _ k htl]
        have hn := isEmptyValue_normalizeField k v hk hv
        simp [processEntry, entryWrite_identity_group parse k v hk, hv, hn,
          getKey?_setKey]
      · exact ih _ hmem' hnd.2

/-- The request slot of `account` after the loop is exactly `groupSlot`
of the caller's `account` value (independent of every other entry). -/
theorem foldl_request_account (parse : String → Option Json) (hAG : Bool)
    (entries : List (String × Json)) (st : BuildSt) (vAcc : Json)
    (hmem : ("account", vAcc) ∈ entries)
    (hnd : (entries.map Prod.fst).Nodup)
    (hinit : getKey? st.request "account" = none) :
    getKey? (List.foldl
        (fun st kv => processEntry parse hAG st kv.1 kv.2) st entries).request "account" =
      groupSlot vAcc := by
  induction entries generalizing st with
  | nil => simp at hmem
  | cons hd tl ih =>
      obtain ⟨k₀, v₀⟩ := hd
      simp only [List.map_cons, List.nodup_cons] at hnd
      rw [List.foldl_cons]
      rcases List.mem_cons.mp hmem with heq | hmem'
      · have hk0 : "account" = k₀ := congrArg Prod.fst heq
        have hv0 : vAcc = v₀ := congrArg Prod.snd heq
        subst hv0
        rw [← hk0] at hnd ⊢
        have htl : ∀ kv ∈ tl, kv.1 ≠ "account" := by
          intro kv hm hh
          exact hnd.1 (hh ▸ List.mem_map.mpr ⟨kv, hm, rfl⟩)
        rw [foldl_request_ne parse hAG tl _ "account" htl]
        cases hg : groupSlot vAcc with
        | none => simpa [processEntry, entryWrite_account, hg] using hinit
        | some c => simp [processEntry, entryWrite_account, hg, getKey?_setKey]
      · have hk0 : k₀ ≠ "account" := by
          intro hh
          exact hnd.1 (hh ▸ List.mem_map.mpr ⟨("account", vAcc), hmem', rfl⟩)
        exact ih _ hmem' hnd.2
          ((processEntry_request_ne parse hAG st k₀ v₀ "account"
            (fun hh => hk0 hh.symm)).trans hinit)

/-! ## Canonicalizer facts: identity-field folding -/

theorem getKey?_finishRequest_ne (hAG : Bool) (st : BuildSt) (k : String)
    (h : k ≠ "account") :
    getKey? (finishRequest hAG st) k = getKey? st.request k := by
  unfold finishRequest
  split
  · rw [getKey?_setKey, if_neg h]
  · rfl

theorem finishRequest_true (st : BuildSt) :
    finishRequest true st = st.request := by
  simp [finishRequest]

theorem getKey?_finishRequest_acc (st : BuildSt)
    (hne : st.accountFields ≠ []) :
    getKey? (finishRequest false st) "account" =
      some (.obj st.accountFields) := by
  unfold finishRequest
  rw [if_pos ⟨List.length_pos.mpr hne, rfl⟩, getKey?_setKey, if_pos rfl]

/-- Synthesized-account behaviour of the loop result, for any initial
accumulator. -/
theorem finish_folded_general (parse : String → Option Json)
    (data : List (String × Json)) (k : String) (v : Json)
    (hk : k ∈ dataFieldsList) (hnd : (data.map Prod.fst).Nodup)
    (hmem : (k, v) ∈ data) (hv : isEmptyValue v = false) (st₀ : BuildSt) :
    ∃ acc,
      getKey? (finishRequest false
        (List.foldl (fun st kv => processEntry parse false st kv.1 kv.2)
          st₀ data)) "account" = some (.obj acc) ∧
      getKey? acc k = some (normalizeField k v) := by
  have hfound := foldl_acc_found parse data st₀ k v hk hmem hnd hv
  refine ⟨_, ?_, hfound⟩
  apply getKey?_finishRequest_acc
  intro hnil
  rw [hnil] at hfound
  simp [getKey?] at hfound

/-- With no explicit `account` key, `buildRequest` leaves no identity
field at the root. -/
theorem buildRequest_identity_root_none (parse : String → Option Json)
    (data : List (String × Json)) (k : String)
    (hk : k ∈ dataFieldsList) (hacc : getKey? data "account" = none) :
    getKey? (buildRequest parse data) k = none := by
  have hne_action : k ≠ "action" := by fin_cases hk <;> decide
  have hne_acc : k ≠ "account" := by fin_cases hk <;> decide
  have hne_e : k ≠ "echo_query" := by fin_cases hk <;> decide
  have hne_c : k ≠ "connectivity" := by fin_cases hk <;> decide
  have hne_s : k ≠ "signals" := by fin_cases hk <;> decide
  simp only [buildRequest, hacc, Option.isSome_none]
  rw [getKey?_maybeSet_ne _ _ _ _ hne_s, getKey?_maybeSet_ne _ _ _ _ hne_c,
    getKey?_maybeSet_ne _ _ _ _ hne_e, getKey?_finishRequest_ne _ _ _ hne_acc,
    foldl_request_identity_noGroup parse data _ k hk]
  simp [getKey?, Ne.symm hne_action]

/-- With no explicit `account` key, every non-empty root identity field
appears, normalized, inside the synthesized `account` group. -/
theorem buildRequest_identity_folded (parse : String → Option Json)
    (data : List (String × Json)) (k : String) (v : Json)
    (hk : k ∈ dataFieldsList) (hnd : (data.map Prod.fst).Nodup)
    (hacc : getKey? data "account" = none)
    (hmem : (k, v) ∈ data) (hv : isEmptyValue v = false) :
    ∃ acc, getKey? (buildRequest parse data) "account" = some (.obj acc) ∧
      getKey? acc k = some (normalizeField k v) := by
  simp only [buildRequest, hacc, Option.isSome_none]
  rw [getKey?_maybeSet_ne _ _ _ _ (by decide : ("account" : String) ≠ "signals"),
    getKey?_maybeSet_ne _ _ _ _ (by decide : ("account" : String) ≠ "connectivity"),
    getKey?_maybeSet_ne _ _ _ _ (by decide : ("account" : String) ≠ "echo_query")]
  exact finish_folded_general parse data k v hk hnd hmem hv _

/-- With an explicit `account` key, every non-empty root identity field
stays at the request root, normalized. -/
theorem buildRequest_identity_root_kept (parse : String → Option Json)
    (data : List (String × Json)) (k : String) (v : Json) (vAcc : Json)
    (hk : k ∈ dataFieldsList) (hnd : (data.map Prod.fst).Nodup)
    (haccmem : ("account", vAcc) ∈ data)
    (hmem : (k, v) ∈ data) (hv : isEmptyValue v = false) :
    getKey? (buildRequest parse data) k = some (normalizeField k v) := by
  have hne_e : k ≠ "echo_query" := by fin_cases hk <;> decide
  have hne_c : k ≠ "connectivity" := by fin_cases hk <;> decide
  have hne_s : k ≠ "signals" := by fin_cases hk <;> decide
  have hacc : getKey? data "account" = some vAcc :=
    getKey?_of_mem _ _ _ hnd haccmem
  simp only [buildRequest, hacc, Option.isSome_some]
  rw [getKey?_maybeSet_ne _ _ _ _ hne_s, getKey?_maybeSet_ne _ _ _ _ hne_c,
    getKey?_maybeSet_ne _ _ _ _ hne_e, finishRequest_true]
  exact foldl_request_found parse data _ k v hk hmem hnd hv

/-- With an explicit `account` key, the `account` slot of the result is
computed from the caller's `account` value alone. -/
theorem buildRequest_account_slot (parse : String → Option Json)
    (data : List (String × Json)) (vAcc : Json)
    (hnd : (data.map Prod.fst).Nodup)
    (haccmem : ("account", vAcc) ∈ data) :
    getKey? (buildRequest parse data) "account" = groupSlot vAcc := by
  have hacc : getKey? data "account" = some vAcc :=
    getKey?_of_mem _ _ _ hnd haccmem
  simp only [buildRequest, hacc, Option.isSome_some]
  rw [getKey?_maybeSet_ne _ _ _ _ (by decide : ("account" : String) ≠ "signals"),
    getKey?_maybeSet_ne _ _ _ _ (by decide : ("account" : String) ≠ "connectivity"),
    getKey?_maybeSet_ne _ _ _ _ (by decide : ("account" : String) ≠ "echo_query"),
    finishRequest_true]
  exact foldl_request_account parse true data _ vAcc haccmem hnd (by simp [getKey?])

/-- **C1**: `buildRequest` folds root-level singular identity fields
(name, email, phone, address) into a synthesized `account` group exactly
when the caller supplied no explicit `account` key: with no `account`
key, every non-empty root identity field disappears from the root and
reappears, normalized, in the synthesized `account` group; with an
explicit `account` key (even an empty object), every non-empty root
identity field remains at the root, normalized, and the `account` slot
of the result is computed from the caller's `account` value alone (root
fields are never merged into it).  In particular
`canonicalize({name:"Jo Doe"})` yields `account:{name:{raw:"Jo Doe"}}`
and `canonicalize({account:{}, name:"Jo Doe"})` leaves root `name` as
`{raw:"Jo Doe"}` with no `account` group at all. -/
theorem C1_account_group_folding (parse : String → Option Json)
    (data : List (String × Json)) (hnd : (data.map Prod.fst).Nodup) :
    ((getKey? data "account" = none →
      ∀ k v, k ∈ dataFieldsList → (k, v) ∈ data → isEmptyValue v = false →
        getKey? (buildRequest parse data) k = none ∧
        ∃ acc,
          getKey? (buildRequest parse data) "account" = some (.obj acc) ∧
          getKey? acc k = some (normalizeField k v)) ∧
     ∀ vAcc, ("account", vAcc) ∈ data →
       (∀ k v, k ∈ dataFieldsList → (k, v) ∈ data → isEmptyValue v = false →
         getKey? (buildRequest parse data) k = some (normalizeField k v)) ∧
       getKey? (buildRequest parse data) "account" = groupSlot vAcc) ∧
    buildRequest parse [("name", .str "Jo Doe")] =
      [("action", .obj [("type", .str "purchase")]),
       ("account", .obj [("name", .obj [("raw", .str "Jo Doe")])])] ∧
    buildRequest parse [("account", .obj []), ("name", .str "Jo Doe")] =
      [("action", .obj [("type", .str "purchase")]),
       ("name", .obj [("raw", .str "Jo Doe")])] := by
  refine ⟨⟨fun hacc k v hk hmem hv => ⟨?_, ?_⟩,
    fun vAcc haccmem => ⟨fun k v hk hmem hv => ?_, ?_⟩⟩, rfl, rfl⟩
  · exact buildRequest_identity_root_none parse data k hk hacc
  · exact buildRequest_identity_folded parse data k v hk hnd hacc hmem hv
  · exact buildRequest_identity_root_kept parse data k v vAcc hk hnd haccmem hmem hv
  · exact buildRequest_account_slot parse data vAcc hnd haccmem

/-- Closed instance of `C1_account_group_folding` at
`data = [("name", "Jo Doe")]` (no `account` key): the root `name` slot
is empty and the synthesized account group holds the normalized name. -/
theorem C1_account_group_folding_witness :
    getKey? (buildRequest (fun _ => none) [("name", Json.str "Jo Doe")])
        "name" = none ∧
    ∃ acc,
      getKey? (buildRequest (fun _ => none) [("name", Json.str "Jo Doe")])
          "account" = some (.obj acc) ∧
      getKey? acc "name" = some (normalizeField "name" (Json.str "Jo Doe")) :=
  (C1_account_group_folding (fun _ => none) [("name", Json.str "Jo Doe")]
      (by decide)).1.1 rfl "name" (Json.str "Jo Doe")
    (by decide) (List.mem_singleton.mpr rfl) (by rfl)

/-! ## Sanitizer facts -/

/-- Whatever `cleanObject` keeps is not an empty value. -/
theorem cleanObject_not_empty : ∀ (x v : Json), cleanObject x = some v →
    isEmptyValue v = false
  | .null, v, h => by simp [cleanObject] at h
  | .bool b, v, h => by
      rw [cleanObject] at h
      injection h with h'
      subst h'
      rfl
  | .num n, v, h => by
      rw [cleanObject] at h
      injection h with h'
      subst h'
      rfl
  | .str s, v, h => by
      by_cases he : isEmptyValue (.str s) = true
      · rw [cleanObject, if_pos he] at h
        cases h
      · rw [cleanObject, if_neg he] at h
        injection h with h'
        subst h'
        simpa using he
  | .arr elems, v, h => by
      rw [cleanObject] at h
      injection h with h'
      subst h'
      rfl
  | .obj fields, v, h => by
      by_cases hl : (cleanFields fields).length > 0
      · rw [cleanObject, if_pos hl] at h
        injection h with h'
        subst h'
        simpa [isEmptyValue] using Nat.pos_iff_ne_zero.mp hl
      · rw [cleanObject, if_neg hl] at h
        cases h

mutual

/-- A value kept by `cleanObject` is a fixed point of `cleanObject`. -/
theorem cleanObject_idem : ∀ (x v : Json), cleanObject x = some v →
    cleanObject v = some v
  | .null, v, h => by simp [cleanObject] at h
  | .bool b, v, h => by
      rw [cleanObject] at h
      injection h with h'
      subst h'
      rfl
  | .num n, v, h => by
      rw [cleanObject] at h
      injection h with h'
      subst h'
      rfl
  | .str s, v, h => by
      by_cases he : isEmptyValue (.str s) = true
      · rw [cleanObject, if_pos he] at h
        cases h
      · rw [cleanObject, if_neg he] at h
        injection h with h'
        subst h'
        rw [cleanObject, if_neg he]
  | .arr elems, v, h => by
      rw [cleanObject] at h
      injection h with h'
      subst h'
      rw [cleanObject, cleanElems_idem elems]
  | .obj fields, v, h => by
      by_cases hl : (cleanFields fields).length > 0
      · rw [cleanObject, if_pos hl] at h
        injection h with h'
        subst h'
        rw [cleanObject, cleanFields_idem fields, if_pos hl]
      · rw [cleanObject, if_neg hl] at h
        cases h

/-- The element-wise cleaning of an array is idempotent. -/
theorem cleanElems_idem : ∀ (xs : List Json),
    cleanElems (cleanElems xs) = cleanElems xs
  | [] => rfl
  | x :: xs => by
      cases hx : cleanObject x with
      | none => simp only [cleanElems, hx]; exact cleanElems_idem xs
      | some v =>
          simp only [cleanElems, hx]
          by_cases hev : isEmptyValue v = true
          · simp only [if_pos hev]
            exact cleanElems_idem xs
          · rw [if_neg hev]
            have hcv := cleanObject_idem x v hx
            simp [cleanElems, hcv, hev, cleanElems_idem xs]

/-- The field-wise cleaning of an object is idempotent. -/
theorem cleanFields_idem : ∀ (fs : List (String × Json)),
    cleanFields (cleanFields fs) = cleanFields fs
  | [] => rfl
  | (k, v) :: fs => by
      cases hv : cleanObject v with
      | none => simp only [cleanFields, hv]; exact cleanFields_idem fs
      | some c =>
          simp only [cleanFields, hv]
          by_cases hec : isEmptyValue c = true
          · simp only [if_pos hec]
            exact cleanFields_idem fs
          · rw [if_neg hec]
            have hcv := cleanObject_idem v c hv
            simp [cleanFields, hcv, hec, cleanFields_idem fs]

end

/-- **C3**: sanitization is idempotent: for every input `x`,
`sanitize(sanitize(x)) = sanitize(x)` (`cleanObject` re-applied to a
kept result returns it unchanged; absence stays absent). -/
theorem C3_sanitize_idempotent (x : Json) :
    (cleanObject x).bind cleanObject = cleanObject x := by
  cases h : cleanObject x with
  | none => rfl
  | some v => simpa using cleanObject_idem x v h

/-- An object cleans to nothing exactly when each of its field values
cleans to nothing. -/
theorem cleanFields_eq_nil_iff (fs : List (String × Json)) :
    cleanFields fs = [] ↔ ∀ kv ∈ fs, cleanObject kv.2 = none := by
  induction fs with
  | nil => simp [cleanFields]
  | cons hd tl ih =>
      obtain ⟨k, v⟩ := hd
      cases hv : cleanObject v with
      | none => simp [cleanFields, hv, ih]
      | some c =>
          have hec := cleanObject_not_empty v c hv
          simp [cleanFields, hv, hec]

/-- **C2** is false as stated: `["n/a"]` is a sequence whose every member
sanitizes to absence, yet `cleanObject` keeps it, returning the empty
array (a present, non-empty value) instead of absence. -/
theorem C2_sanitize_absence_counterexample :
    cleanObject (Json.str "n/a") = none ∧
    cleanObject (Json.arr [Json.str "n/a"]) = some (Json.arr []) ∧
    isEmptyValue (Json.arr []) = false :=
  ⟨rfl, rfl, rfl⟩

/-- **C2 amended**: sanitization is total, and yields absence exactly for
null, placeholder strings, and (non-array) mappings whose every member
sanitizes to absence; an array is never sanitized to absence — an array
whose every member sanitizes to absence becomes the retained empty
array. -/
theorem C2_sanitize_absence_characterization (x : Json) :
    (cleanObject x = none ↔
      (x = .null ∨
       (∃ s, x = .str s ∧ isEmptyValue (.str s) = true) ∨
       (∃ fs, x = .obj fs ∧ ∀ kv ∈ fs, cleanObject kv.2 = none))) ∧
    ∀ elems, x = .arr elems → cleanObject x ≠ none := by
  constructor
  · cases x with
    | null => simp [cleanObject]
    | bool b => simp [cleanObject]
    | num n => simp [cleanObject]
    | str s =>
        by_cases he : isEmptyValue (.str s) = true <;>
          simp [cleanObject, he]
    | arr elems => simp [cleanObject]
    | obj fields =>
        by_cases hl : (cleanFields fields).length > 0
        · have hne : cleanFields fields ≠ [] := by
            intro hnil
            rw [hnil] at hl
            simp at hl
          rw [cleanObject, if_pos hl]
          constructor
          · intro h
            cases h
          · rintro (h | ⟨s, hs, hemp⟩ | ⟨fs, hfs, hall⟩)
            · cases h
            · cases hs
            · injection hfs with hfs'
              subst hfs'
              exact absurd ((cleanFields_eq_nil_iff fields).mpr hall) hne
        · have hnil : cleanFields fields = [] := by
            simpa using Nat.le_zero.mp (Nat.not_lt.mp hl)
          rw [cleanObject, if_neg hl]
          constructor
          · intro _
            exact Or.inr (Or.inr ⟨fields, rfl, (cleanFields_eq_nil_iff fields).mp hnil⟩)
          · intro _
            rfl
  · rintro elems rfl
    simp [cleanObject]

/-- Closed instance of `C2_sanitize_absence_characterization`: the empty
array (itself the sanitization of `["n/a"]`) does not sanitize to
absence. -/
theorem C2_sanitize_absence_characterization_witness :
    cleanObject (Json.arr []) ≠ none :=
  (C2_sanitize_absence_characterization (Json.arr [])).2 [] rfl

/-! ## Transport facts -/

/-- Every call to `makeRequest` performs at least one network attempt. -/
theorem makeRequest_attempts_pos (maxRetries retryDelay : Nat)
    (oracle : Nat → AttemptOutcome) (attempt : Nat) :
    1 ≤ (makeRequest maxRetries retryDelay oracle attempt).attempts := by
  unfold makeRequest
  repeat' split
  all_goals simp

/-- **C8**: a timed-out exchange fails with the Timeout classification
(message "Request timeout", HTTP status 408) immediately: exactly one
network attempt, no backoff sleep, and no retry regardless of how many
retry attempts remain. -/
theorem C8_timeout_never_retried (maxRetries retryDelay : Nat)
    (oracle : Nat → AttemptOutcome) (attempt : Nat)
    (h : oracle attempt = .abortTimeout) :
    makeRequest maxRetries retryDelay oracle attempt =
      ⟨.error ⟨"Request timeout", none, some 408⟩, 1, 0⟩ := by
  unfold makeRequest
  rw [h]

/-- Closed instance of `C8_timeout_never_retried`: a first-attempt
timeout with three retries remaining still performs exactly one
attempt. -/
theorem C8_timeout_never_retried_witness :
    makeRequest 3 1000 (fun _ => .abortTimeout) 1 =
      ⟨.error ⟨"Request timeout", none, some 408⟩, 1, 0⟩ :=
  C8_timeout_never_retried 3 1000 (fun _ => .abortTimeout) 1 rfl

/-- **C7**: with `maxRetries = 3` (the constructor default when the
option is omitted), HTTP 503 on attempts 1 and 2 and HTTP 200 on
attempt 3 make the call succeed after exactly 3 attempts with total
backoff sleep `retryDelay*1 + retryDelay*2` (linear in the attempt
number); and a permanently failing 5xx endpoint is tried exactly
`maxRetries + 1 = 4` times. -/
theorem C7_linear_backoff_retry (retryDelay : Nat)
    (oracle oracle2 : Nat → AttemptOutcome) (okBody errBody : RespBody)
    (b1 b2 : Except String RespBody)
    (h1 : oracle 1 = .http 503 none b1)
    (h2 : oracle 2 = .http 503 none b2)
    (h3 : oracle 3 = .http 200 none (.ok okBody))
    (hall : ∀ n, oracle2 n = .http 503 none (.ok errBody)) :
    makeRequest 3 retryDelay oracle 1 =
      ⟨.ok okBody, 3, retryDelay * 1 + retryDelay * 2⟩ ∧
    (∀ cfg : TrustAPIConfig, cfg.maxRetries = none → configMaxRetries cfg = 3) ∧
    (makeRequest 3 retryDelay oracle2 1).attempts = 4 := by
  refine ⟨?_, ?_, ?_⟩
  · have e3 : makeRequest 3 retryDelay oracle 3 = ⟨.ok okBody, 1, 0⟩ := by
      unfold makeRequest
      rw [h3]
      simp
    have e2 : makeRequest 3 retryDelay oracle 2 =
        ⟨.ok okBody, 2, retryDelay * 2⟩ := by
      unfold makeRequest
      rw [h2]
      simp [e3]
    unfold makeRequest
    rw [h1]
    simp [e2]
    omega
  · intro cfg hc
    simp [configMaxRetries, hc]
  · have e4 : (makeRequest 3 retryDelay oracle2 4).attempts = 1 := by
      unfold makeRequest
      rw [hall 4]
      simp
    have e3 : (makeRequest 3 retryDelay oracle2 3).attempts = 2 := by
      unfold makeRequest
      rw [hall 3]
      simp [e4]
    have e2 : (makeRequest 3 retryDelay oracle2 2).attempts = 3 := by
      unfold makeRequest
      rw [hall 2]
      simp [e3]
    unfold makeRequest
    rw [hall 1]
    simp [e2]

/-- Closed instance of `C7_linear_backoff_retry`: 503, 503, then 200
with base delay 7 succeeds on the third attempt having slept
`7*1 + 7*2` ms. -/
theorem C7_linear_backoff_retry_witness :
    makeRequest 3 7
        (fun n => if n = 3 then .http 200 none (.ok ⟨none, none, none⟩)
          else .http 503 none (.ok ⟨none, none, none⟩)) 1 =
      ⟨.ok ⟨none, none, none⟩, 3, 7 * 1 + 7 * 2⟩ ∧
    (makeRequest 3 7 (fun _ => .http 503 none (.ok ⟨none, none, none⟩)) 1).attempts = 4 :=
  ⟨(C7_linear_backoff_retry 7
      (fun n => if n = 3 then .http 200 none (.ok ⟨none, none, none⟩)
        else .http 503 none (.ok ⟨none, none, none⟩))
      (fun _ => .http 503 none (.ok ⟨none, none, none⟩))
      ⟨none, none, none⟩ ⟨none, none, none⟩
      (.ok ⟨none, none, none⟩) (.ok ⟨none, none, none⟩)
      rfl rfl rfl (fun _ => rfl)).1,
   (C7_linear_backoff_retry 7
      (fun n => if n = 3 then .http 200 none (.ok ⟨none, none, none⟩)
        else .http 503 none (.ok ⟨none, none, none⟩))
      (fun _ => .http 503 none (.ok ⟨none, none, none⟩))
      ⟨none, none, none⟩ ⟨none, none, none⟩
      (.ok ⟨none, none, none⟩) (.ok ⟨none, none, none⟩)
      rfl rfl rfl (fun _ => rfl)).2.2⟩

/-! ## Validator facts -/

namespace RequestValidator

theorem validateName_errors_coded (n : NameObject) (path : String) :
    ∀ e ∈ (validateName n path).1, e.code.isSome = true := by
  intro e he
  unfold validateName at he
  repeat' split at he
  all_goals simp_all

theorem validateEmail_errors_coded (em : EmailObject) (path : String) :
    ∀ e ∈ (validateEmail em path).1, e.code.isSome = true := by
  intro e he
  unfold validateEmail at he
  repeat' split at he
  all_goals simp_all

theorem validatePhone_errors_coded (p : PhoneObject) (path : String) :
    ∀ e ∈ (validatePhone p path).1, e.code.isSome = true := by
  intro e he
  unfold validatePhone at he
  repeat' split at he
  all_goals simp_all

theorem validateAddress_errors_coded (a : AddressObject) (path : String) :
    ∀ e ∈ (validateAddress a path).1, e.code.isSome = true := by
  intro e he
  unfold validateAddress at he
  repeat' split at he
  all_goals simp_all

theorem validateDevice_errors_coded (d : DeviceObject) (path : String) :
    ∀ e ∈ (validateDevice d path).1, e.code.isSome = true := by
  intro e he
  unfold validateDevice at he
  rcases List.mem_append.mp he with h1 | h2
  · split at h1 <;> simp_all
  · split at h2 <;> simp_all

theorem validatePerson_errors_coded (p : PersonObject) (path : String) :
    ∀ e ∈ (validatePerson p path).1, e.code.isSome = true := by
  intro e he
  unfold validatePerson at he
  repeat' split at he
  all_goals simp_all

theorem validatePersonalIdentifier_errors_coded
    (i : PersonalIdentifierObject) (path : String) :
    ∀ e ∈ (validatePersonalIdentifier i path).1, e.code.isSome = true := by
  intro e he
  unfold validatePersonalIdentifier at he
  rcases List.mem_append.mp he with h1 | h2
  · split at h1 <;> simp_all
  · split at h2 <;> simp_all

theorem joinFindings_errors_coded (a b : Findings)
    (ha : ∀ e ∈ a.1, e.code.isSome = true)
    (hb : ∀ e ∈ b.1, e.code.isSome = true) :
    ∀ e ∈ (joinFindings a b).1, e.code.isSome = true := by
  intro e he
  rcases List.mem_append.mp he with h | h
  · exact ha e h
  · exact hb e h

theorem optionalFindings_errors_coded {α : Type}
    (f : α → String → Findings) (x : Option α) (path : String)
    (hf : ∀ y p, ∀ e ∈ (f y p).1, e.code.isSome = true) :
    ∀ e ∈ (optionalFindings f x path).1, e.code.isSome = true := by
  cases x with
  | none => intro e he; simp [optionalFindings] at he
  | some y => exact hf y path

theorem validateAccountGroup_errors_coded (a : AccountObject) :
    ∀ e ∈ (validateAccountGroup a).1, e.code.isSome = true := by
  unfold validateAccountGroup
  refine joinFindings_errors_coded _ _
    (optionalFindings_errors_coded _ _ _ validateName_errors_coded)
    (joinFindings_errors_coded _ _
      (optionalFindings_errors_coded _ _ _ validateEmail_errors_coded)
      (joinFindings_errors_coded _ _
        (optionalFindings_errors_coded _ _ _ validatePhone_errors_coded)
        (joinFindings_errors_coded _ _
          (optionalFindings_errors_coded _ _ _ validateAddress_errors_coded)
          (joinFindings_errors_coded _ _
            (optionalFindings_errors_coded _ _ _ validatePerson_errors_coded)
            (joinFindings_errors_coded _ _
              (optionalFindings_errors_coded _ _ _
                validatePersonalIdentifier_errors_coded)
              (fun e he => by simp at he))))))

theorem validateBillingShippingGroup_errors_coded (g : GroupObject)
    (groupName : String) :
    ∀ e ∈ (validateBillingShippingGroup g groupName).1,
      e.code.isSome = true := by
  unfold validateBillingShippingGroup
  exact joinFindings_errors_coded _ _
    (optionalFindings_errors_coded _ _ _ validateName_errors_coded)
    (joinFindings_errors_coded _ _
      (optionalFindings_errors_coded _ _ _ validateEmail_errors_coded)
      (joinFindings_errors_coded _ _
        (optionalFindings_errors_coded _ _ _ validatePhone_errors_coded)
        (optionalFindings_errors_coded _ _ _ validateAddress_errors_coded)))

theorem actionFindings_errors_coded (r : TrustRequest) :
    ∀ e ∈ (actionFindings r).1, e.code.isSome = true := by
  intro e he
  unfold actionFindings at he
  repeat' split at he
  all_goals simp_all

theorem requestFindings_errors_coded (r : TrustRequest) :
    ∀ e ∈ (requestFindings r).1, e.code.isSome = true := by
  unfold requestFindings
  refine joinFindings_errors_coded _ _ (actionFindings_errors_coded r)
    (joinFindings_errors_coded _ _ (fun e he => ?_)
      (joinFindings_errors_coded _ _
        (optionalFindings_errors_coded _ _ _ validateName_errors_coded)
        (joinFindings_errors_coded _ _
          (optionalFindings_errors_coded _ _ _ validateEmail_errors_coded)
          (joinFindings_errors_coded _ _
            (optionalFindings_errors_coded _ _ _ validatePhone_errors_coded)
            (joinFindings_errors_coded _ _
              (optionalFindings_errors_coded _ _ _ validateAddress_errors_coded)
              (joinFindings_errors_coded _ _
                (optionalFindings_errors_coded _ _ _ validateDevice_errors_coded)
                (joinFindings_errors_coded _ _
                  (optionalFindings_errors_coded _ _ _ validatePerson_errors_coded)
                  (joinFindings_errors_coded _ _
                    (optionalFindings_errors_coded _ _ _
                      validatePersonalIdentifier_errors_coded)
                    (joinFindings_errors_coded _ _ (fun e he => ?_)
                      (joinFindings_errors_coded _ _ (fun e he => ?_)
                        (fun e he => ?_)))))))))))
  · split at he <;> simp_all
  · revert he
    split
    · exact fun he => validateAccountGroup_errors_coded _ e he
    · intro he; simp at he
  · revert he
    split
    · exact fun he => validateBillingShippingGroup_errors_coded _ _ e he
    · intro he; simp at he
  · revert he
    split
    · exact fun he => validateBillingShippingGroup_errors_coded _ _ e he
    · intro he; simp at he

end RequestValidator

namespace TrustAPIClient

theorem checkPhone_error_coded (p : Option PhoneObject) (path : String)
    (e : TrustAPIError) (h : checkPhone p path = .error e) :
    e.code.isSome = true := by
  cases p with
  | none => simp [checkPhone] at h
  | some phone =>
      unfold checkPhone at h
      repeat' split at h
      all_goals first
        | (cases h; rfl)
        | simp_all

theorem checkAddress_error_coded (a : Option AddressObject) (path : String)
    (e : TrustAPIError) (h : checkAddress a path = .error e) :
    e.code.isSome = true := by
  cases a with
  | none => simp [checkAddress] at h
  | some address =>
      unfold checkAddress at h
      repeat' split at h
      all_goals first
        | (cases h; rfl)
        | simp_all

theorem checkName_error_coded (n : Option NameObject) (path : String)
    (e : TrustAPIError) (h : checkName n path = .error e) :
    e.code.isSome = true := by
  cases n with
  | none => simp [checkName] at h
  | some name =>
      unfold checkName at h
      repeat' split at h
      all_goals first
        | (cases h; rfl)
        | simp_all

theorem firstError_mem (l : List (Except TrustAPIError Unit))
    (e : TrustAPIError) (h : firstError l = .error e) :
    (Except.error e : Except TrustAPIError Unit) ∈ l := by
  induction l with
  | nil => simp [firstError] at h
  | cons c rest ih =>
      cases c with
      | error e' =>
          simp only [firstError] at h
          injection h with h'
          subst h'
          exact List.mem_cons_self _ _
      | ok u =>
          simp only [firstError] at h
          exact List.mem_cons_of_mem _ (ih h)

theorem validateRequest_error_coded (r : TrustRequest) (e : TrustAPIError)
    (h : validateRequest r = .error e) : e.code.isSome = true := by
  unfold validateRequest at h
  split at h
  · injection h with h'
    subst h'
    rfl
  · split at h
    · injection h with h'
      subst h'
      rfl
    · have hm := firstError_mem _ _ h
      simp only [List.mem_cons, List.not_mem_nil, or_false] at hm
      rcases hm with h1|h1|h1|h1|h1|h1|h1|h1|h1|h1|h1|h1
      · exact checkPhone_error_coded _ _ e h1.symm
      · exact checkPhone_error_coded _ _ e h1.symm
      · exact checkPhone_error_coded _ _ e h1.symm
      · exact checkPhone_error_coded _ _ e h1.symm
      · exact checkAddress_error_coded _ _ e h1.symm
      · exact checkAddress_error_coded _ _ e h1.symm
      · exact checkAddress_error_coded _ _ e h1.symm
      · exact checkAddress_error_coded _ _ e h1.symm
      · exact checkName_error_coded _ _ e h1.symm
      · exact checkName_error_coded _ _ e h1.symm
      · exact checkName_error_coded _ _ e h1.symm
      · exact checkName_error_coded _ _ e h1.symm

end TrustAPIClient

/-- **C4** fails as stated: on a request with two validation faults the
score path (`scoreTransaction`, whose pre-flight `validateRequest`
throws at the first failing check) surfaces only the phone failure —
one finding, not the full list — while the standalone
`RequestValidator.validateRequest` finds both errors. -/
theorem C4_score_path_counterexample :
    TrustAPIClient.scoreTransaction "k" 3 1000 10 0 [] (fun _ => .abortTimeout)
        twoFaultScoreRequest =
      (.error ⟨"Phone object at phone cannot have raw with other fields",
        some 1024, none⟩, 0, []) ∧
    (RequestValidator.validateRequest twoFaultScoreRequest).errors.length = 2 :=
  ⟨rfl, rfl⟩

/-- **C4 amended**: the standalone `RequestValidator.validateRequest`
(used by the `validate_request` tool) returns the full findings list —
`valid` iff there are no errors, and every emitted `ValidationError`
carries a domain code — whereas the score path
(`TrustAPIClient.scoreTransaction` → its fail-fast pre-flight
`validateRequest`) surfaces only the first failing check, which itself
always carries a domain code. -/
theorem C4_validation_findings (r : TrustRequest) :
    ((RequestValidator.validateRequest r).valid = true ↔
      (RequestValidator.validateRequest r).errors = []) ∧
    (∀ e ∈ (RequestValidator.validateRequest r).errors, e.code.isSome = true) ∧
    (∀ e, TrustAPIClient.validateRequest r = .error e →
      e.code.isSome = true) := by
  refine ⟨?_, RequestValidator.requestFindings_errors_coded r,
    fun e h => TrustAPIClient.validateRequest_error_coded r e h⟩
  simp [RequestValidator.validateRequest, List.isEmpty_iff]

/-- Closed instance of `C4_validation_findings`: the single error
surfaced by the fail-fast score-path validation of the two-fault request
carries a domain code. -/
theorem C4_validation_findings_witness :
    TrustAPIClient.validateRequest twoFaultScoreRequest =
      .error ⟨"Phone object at phone cannot have raw with other fields",
        some 1024, none⟩ ∧
    (⟨"Phone object at phone cannot have raw with other fields",
      some 1024, none⟩ : TrustAPIError).code.isSome = true :=
  ⟨rfl, (C4_validation_findings twoFaultScoreRequest).2.2 _ rfl⟩

/-- **C5** fails as stated: on the phone `{raw:"555", number:"5551234"}`
the raw-with-other-fields Error (code 1024) and the raw-too-short
Warning fire together on the same sub-field — an Error does not
suppress the paired Warning. -/
theorem C5_error_warning_coexist_counterexample :
    RequestValidator.validatePhone
        { raw := some "555", number := some (.s "5551234") } "phone" =
      ([⟨"phone", "Cannot use raw with other phone fields", some 1024⟩],
       [⟨"phone.raw", "Phone number appears too short", none⟩]) :=
  rfl

/-- **C5 amended**: on a phone with `raw` plus another of
`country_code`/`number`/`extension`, validation emits exactly the one
raw-with-other-fields Error (code 1024); the raw-too-short Warning is
not suppressed by the Error — it is absent exactly when the
digit-stripped raw has at least 7 digits.  In particular the cited
example `{raw:"555-1234", number:"5551234"}` (whose raw has 7 digits)
yields exactly one Error and no Warning. -/
theorem C5_phone_raw_conflict (phone : PhoneObject) (path : String)
    (hraw : optStrTruthy phone.raw = true)
    (hother : (optSNTruthy phone.country_code || optSNTruthy phone.number ||
      optSNTruthy phone.extension) = true) :
    (RequestValidator.validatePhone phone path).1 =
      [⟨path, "Cannot use raw with other phone fields", some 1024⟩] ∧
    ((RequestValidator.validatePhone phone path).2 = [] ↔
      ¬((digitsOnly (phone.raw.getD "")).length < 7)) ∧
    RequestValidator.validatePhone
        { raw := some "555-1234", number := some (.s "5551234") } "phone" =
      ([⟨"phone", "Cannot use raw with other phone fields", some 1024⟩], []) := by
  refine ⟨?_, ?_, rfl⟩
  · simp only [Bool.or_eq_true] at hother
    simp [RequestValidator.validatePhone, hraw]
    rcases hother with (h | h) | h <;> simp [h]
  · simp only [RequestValidator.validatePhone, hraw, if_pos]
    split <;> simp_all

/-- Closed instance of `C5_phone_raw_conflict` at the cited example
`{raw:"555-1234", number:"5551234"}`: one Error, and the no-Warning
condition holds since the raw part carries 7 digits. -/
theorem C5_phone_raw_conflict_witness :
    (RequestValidator.validatePhone
        { raw := some "555-1234", number := some (.s "5551234") } "phone").1 =
      [⟨"phone", "Cannot use raw with other phone fields", some 1024⟩] ∧
    ((RequestValidator.validatePhone
        { raw := some "555-1234", number := some (.s "5551234") } "phone").2 = [] ↔
      ¬((digitsOnly ((some "555-1234").getD "")).length < 7)) :=
  ⟨(C5_phone_raw_conflict
      { raw := some "555-1234", number := some (.s "5551234") } "phone"
      rfl rfl).1,
   (C5_phone_raw_conflict
      { raw := some "555-1234", number := some (.s "5551234") } "phone"
      rfl rfl).2.1⟩

/-! ## Rate limiter facts -/

/-- **C6** fails as stated: with ceiling 1, window `[0]` and a call at
`t = 500`, the limiter sleeps until `t = 1010` but records the pre-wait
timestamp `500` — not the post-wait admission time — and performs no
re-check after the sleep (the call is admitted unconditionally). -/
theorem C6_rate_limit_counterexample :
    applyRateLimit 1 500 [0] = (1010, [0, 500]) ∧
    ¬([(0 : Int), 500] = [0, 1010]) :=
  ⟨by decide, by decide⟩

/-- **C6 amended**: on every admission check the limiter first prunes
timestamps older than 1000 ms; if the remaining count has reached the
ceiling it sleeps once for `1000 − (now − oldestRemaining) + 10` ms
(when positive) without re-checking, and records the pre-wait timestamp
`now`; admission then happens no earlier than `oldestRemaining + 1000`.
Consequently with ceiling 10 and ten admissions at `t = 0`, the
eleventh admission does not occur before `t = 1010 ≥ 1000`. -/
theorem C6_rate_limit_window (rateLimitQPS : Nat) (now : Int)
    (requests : List Int)
    (hlim : (requests.filter (fun t => decide (t > now - 1000))).length ≥
      rateLimitQPS) :
    (applyRateLimit rateLimitQPS now requests).2 =
      (requests.filter (fun t => decide (t > now - 1000))) ++ [now] ∧
    (applyRateLimit rateLimitQPS now requests).1 ≥
      (requests.filter (fun t => decide (t > now - 1000))).headD 0 + 1000 ∧
    Nat.iterate (fun st => (applyRateLimit 10 0 st).2) 10 [] =
      List.replicate 10 0 ∧
    (applyRateLimit 10 0
      (Nat.iterate (fun st => (applyRateLimit 10 0 st).2) 10 [])).1 = 1010 := by
  refine ⟨?_, ?_, by decide, by decide⟩
  · unfold applyRateLimit
    rw [if_pos hlim]
    split <;> rfl
  · unfold applyRateLimit
    rw [if_pos hlim]
    split
    · simp only []
      omega
    · simp only []
      omega

/-- Closed instance of `C6_rate_limit_window` at ceiling 1, window `[0]`,
`now = 500`: the new window keeps the pruned entries plus the pre-wait
timestamp, and admission happens at `1010 ≥ 0 + 1000`. -/
theorem C6_rate_limit_window_witness :
    (applyRateLimit 1 500 [0]).2 =
      (([0] : List Int).filter (fun t => decide (t > 500 - 1000))) ++ [500] ∧
    (applyRateLimit 1 500 [0]).1 ≥
      (([0] : List Int).filter (fun t => decide (t > 500 - 1000))).headD 0 + 1000 :=
  ⟨(C6_rate_limit_window 1 500 [0] (by decide)).1,
   (C6_rate_limit_window 1 500 [0] (by decide)).2.1⟩

/-! ## Feedback bounds -/

/-- **C9**: `sendFeedback` requires 1 ≤ item count ≤ 1000 locally,
before any rate limiting or network activity: 0 items fail locally with
the missing-item error, the attempt counter stays 0 and the rate window
is untouched; 1000 items pass the local checks and reach the network
(at least one attempt for every oracle); 1001 items fail locally with
too-many-feedbacks (code 1023), again with no network attempt and an
untouched window. -/
theorem C9_feedback_bounds (apiKey : String)
    (maxRetries retryDelay qps : Nat) (now : Int) (window : List Int)
    (oracle : Nat → AttemptOutcome)
    (req0 req1000 req1001 : FeedbackRequestPartial)
    (h0 : (req0.feedbacks.getD []).length = 0)
    (h1000 : (req1000.feedbacks.getD []).length = 1000)
    (h1001 : (req1001.feedbacks.getD []).length = 1001) :
    TrustAPIClient.sendFeedback apiKey maxRetries retryDelay qps now window
        oracle req0 =
      (.error ⟨"At least one feedback item is required", none, none⟩, 0,
       window) ∧
    1 ≤ (TrustAPIClient.sendFeedback apiKey maxRetries retryDelay qps now
        window oracle req1000).2.1 ∧
    TrustAPIClient.sendFeedback apiKey maxRetries retryDelay qps now window
        oracle req1001 =
      (.error ⟨"Maximum 1000 feedback items allowed per request", some 1023,
        none⟩, 0, window) := by
  refine ⟨?_, ?_, ?_⟩
  · simp [TrustAPIClient.sendFeedback, TrustAPIClient.feedbackFullRequest, h0]
  · simp [TrustAPIClient.sendFeedback, TrustAPIClient.feedbackFullRequest,
      h1000]
    exact makeRequest_attempts_pos maxRetries retryDelay oracle 1
  · simp [TrustAPIClient.sendFeedback, TrustAPIClient.feedbackFullRequest,
      h1001]

/-- Closed instance of `C9_feedback_bounds` with concrete item lists of
lengths 0, 1000 and 1001 and a timing-out transport. -/
theorem C9_feedback_bounds_witness :
    TrustAPIClient.sendFeedback "k" 3 1000 10 0 [] (fun _ => .abortTimeout)
        ⟨none, none, some []⟩ =
      (.error ⟨"At least one feedback item is required", none, none⟩, 0, []) ∧
    1 ≤ (TrustAPIClient.sendFeedback "k" 3 1000 10 0 [] (fun _ => .abortTimeout)
        ⟨none, none,
          some (List.replicate 1000 ⟨"i", "response_id", 1001, none, none, none⟩)⟩).2.1 ∧
    TrustAPIClient.sendFeedback "k" 3 1000 10 0 [] (fun _ => .abortTimeout)
        ⟨none, none,
          some (List.replicate 1001 ⟨"i", "response_id", 1001, none, none, none⟩)⟩ =
      (.error ⟨"Maximum 1000 feedback items allowed per request", some 1023,
        none⟩, 0, []) :=
  C9_feedback_bounds "k" 3 1000 10 0 [] (fun _ => .abortTimeout)
    ⟨none, none, some []⟩
    ⟨none, none, some (List.replicate 1000 ⟨"i", "response_id", 1001, none, none, none⟩)⟩
    ⟨none, none, some (List.replicate 1001 ⟨"i", "response_id", 1001, none, none, none⟩)⟩
    rfl (by simp) (by simp)

/-! ## Credential-key facts -/

/-- The loop skips any `key` entry outright. -/
theorem processEntry_key_skip (parse : String → Option Json) (hAG : Bool)
    (st : BuildSt) (v : Json) :
    processEntry parse hAG st "key" v = st := rfl

/-- Replacing (or adding) the `key` entry of the input leaves the whole
loop unchanged. -/
theorem foldl_setKey_key (parse : String → Option Json) (hAG : Bool)
    (data : List (String × Json)) (v : Json) (st : BuildSt) :
    List.foldl (fun st kv => processEntry parse hAG st kv.1 kv.2) st
        (setKey data "key" v) =
      List.foldl (fun st kv => processEntry parse hAG st kv.1 kv.2) st data := by
  induction data generalizing st with
  | nil => simp [setKey, processEntry_key_skip]
  | cons hd tl ih =>
      obtain ⟨k₀, v₀⟩ := hd
      by_cases h0 : k₀ = "key"
      · subst h0
        simp [setKey, List.foldl_cons, processEntry_key_skip]
      · simp only [setKey, if_neg h0, List.foldl_cons]
        exact ih _

/-- No iteration ever writes the `key` slot of the request. -/
theorem foldl_request_key (parse : String → Option Json) (hAG : Bool)
    (entries : List (String × Json)) (st : BuildSt) :
    getKey? (List.foldl
        (fun st kv => processEntry parse hAG st kv.1 kv.2) st entries).request
        "key" =
      getKey? st.request "key" := by
  induction entries generalizing st with
  | nil => rfl
  | cons hd tl ih =>
      obtain ⟨k₀, v₀⟩ := hd
      rw [List.foldl_cons, ih]
      by_cases h0 : k₀ = "key"
      · subst h0
        rw [processEntry_key_skip]
      · exact processEntry_request_ne parse hAG st k₀ v₀ "key"
          (fun hh => h0 hh.symm)

/-- `buildRequest` never emits a `key` field. -/
theorem buildRequest_drops_key (parse : String → Option Json)
    (data : List (String × Json)) :
    getKey? (buildRequest parse data) "key" = none := by
  simp only [buildRequest]
  rw [getKey?_maybeSet_ne _ _ _ _ (by decide : ("key" : String) ≠ "signals"),
    getKey?_maybeSet_ne _ _ _ _ (by decide : ("key" : String) ≠ "connectivity"),
    getKey?_maybeSet_ne _ _ _ _ (by decide : ("key" : String) ≠ "echo_query"),
    getKey?_finishRequest_ne _ _ _ (by decide : ("key" : String) ≠ "account"),
    foldl_request_key]
  rfl

/-- The canonicalizer output is insensitive to the caller-supplied `key`
value. -/
theorem buildRequest_key_insensitive (parse : String → Option Json)
    (data : List (String × Json)) (v : Json) :
    buildRequest parse (setKey data "key" v) = buildRequest parse data := by
  simp only [buildRequest, foldl_setKey_key, getKey?_setKey,
    if_neg (by decide : ¬("account" : String) = "key"),
    if_neg (by decide : ¬("action" : String) = "key"),
    if_neg (by decide : ¬("echo_query" : String) = "key"),
    if_neg (by decide : ¬("connectivity" : String) = "key"),
    if_neg (by decide : ¬("signals" : String) = "key")]

/-- **C10**: the `key` of every outbound payload equals the API key fixed
at construction, independent of caller input: `buildRequest` drops any
caller `key` (its output has no `key` slot, and replacing the caller's
`key` value leaves the output identical), `scoreTransaction`'s submitted
request carries `key = apiKey` whatever the caller supplied, and
`sendFeedback`'s submitted request likewise — so two inputs differing
only in the caller-supplied `key` produce identical outbound
payloads. -/
theorem C10_credential_key_fixed (parse : String → Option Json)
    (data : List (String × Json)) (v : Json) (apiKey : String)
    (r : TrustRequest) (k1 k2 : Option String)
    (fb : FeedbackRequestPartial) (fk1 fk2 : Option String) :
    buildRequest parse (setKey data "key" v) = buildRequest parse data ∧
    getKey? (buildRequest parse data) "key" = none ∧
    (TrustAPIClient.scoreFullRequest apiKey r).key = some apiKey ∧
    TrustAPIClient.scoreFullRequest apiKey { r with key := k1 } =
      TrustAPIClient.scoreFullRequest apiKey { r with key := k2 } ∧
    (TrustAPIClient.feedbackFullRequest apiKey fb).key = apiKey ∧
    TrustAPIClient.feedbackFullRequest apiKey { fb with key := fk1 } =
      TrustAPIClient.feedbackFullRequest apiKey { fb with key := fk2 } :=
  ⟨buildRequest_key_insensitive parse data v,
   buildRequest_drops_key parse data, rfl, rfl, rfl, rfl⟩
